import Mathlib

/-!
# uVisor vMPU (Freescale K64): fault dispatcher, page resolver, static ACL resolver,
box layout, box switch

A shallow embedding of `core/system/src/mpu/vmpu_freescale_k64.c`.

* Machine integers are `Nat`, reduced modulo `2^32` wherever the C code performs
  `uint32_t` arithmetic.
* Functions and registers that the C file uses but does not define (page allocator,
  bus-fault corner-case resolver, MPU helpers, ACL tables, hardware registers) are
  fields of `Env`, acting on an abstract external world `W`.
* Every externally visible action is appended to a trace of `Event`s, so that
  ordering statements ("before the halt", "not invoked") can be stated.
* `HALT_ERROR` never returns: a halted run carries the halt reason in its status and
  the trace holds the actions performed before the halt.
-/

namespace Uvisor

/-! ## Constants visible in the sources -/

/-- Number of system vectors before the first NVIC vector (the table in `system.c`
has sixteen entries before `[NVIC_OFFSET ...]`). -/
def NVIC_OFFSET : Int := 16

/-- Vector `-13` of the table in `system.c`. -/
def HardFault_IRQn : Int := -13

/-- Vector `-12` of the table in `system.c`. -/
def MemoryManagement_IRQn : Int := -12

/-- Vector `-11` of the table in `system.c`. -/
def BusFault_IRQn : Int := -11

/-- Vector `-10` of the table in `system.c`. -/
def UsageFault_IRQn : Int := -10

/-- Vector `-4` of the table in `system.c`. -/
def DebugMonitor_IRQn : Int := -4

/-- Vector `-2` of the table in `system.c`. -/
def PendSV_IRQn : Int := -2

/-- Vector `-1` of the table in `system.c`. -/
def SysTick_IRQn : Int := -1

/-- Reduction of a natural number to a `uint32_t` value. -/
def u32 (x : Nat) : Nat := x % 4294967296

/-! ## Halt reasons, events, runs -/

/-- The `THaltError` values named in the source file. -/
inductive THaltError where
  | PERMISSION_DENIED
  | SANITY_CHECK_FAILED
  | NOT_IMPLEMENTED
  | NOT_ALLOWED
  | FAULT_MEMMANAGE
  | FAULT_BUS
  | FAULT_USAGE
  | FAULT_HARD
  | FAULT_DEBUG
  deriving DecidableEq, Repr

/-- Externally visible actions performed by the embedded functions, in program order. -/
inductive Event where
  /-- Models `DEBUG_FAULT(reason, lr, sp)` -/
  | debug_fault (reason : THaltError) (lr sp : Nat)
  /-- Models `page_allocator_get_active_region_for_address(fault_addr, ...)` -/
  | page_lookup (fault_addr : Nat)
  /-- Models `page_allocator_register_fault(page)` -/
  | register_fault (page : Nat)
  /-- Models `vmpu_mem_push_page_acl(start_addr, end_addr)` -/
  | push_page_acl (start_addr end_addr : Nat)
  /-- Models `vmpu_fault_recovery_bus(pc, sp, fault_addr, fault_status)` -/
  | recovery_bus (pc sp fault_addr fault_status : Nat)
  /-- Models `VMPU_SCB_BFSR = v` -/
  | write_BFSR (v : Nat)
  /-- Models `vmpu_fault_clear_slave_port(slave_port)` -/
  | clear_slave_port (slave_port : Int)
  /-- Models `vmpu_region_add_static_acl(box_id, start, size, acl, 0)` -/
  | add_static_acl (box_id start size acl : Nat)
  /-- Models `memset((void *) addr, 0, size)` -/
  | memset_zero (addr size : Nat)
  /-- Models `vmpu_aips_switch(src_box, dst_box)` -/
  | aips_switch (src_box dst_box : Nat)
  /-- Models `vmpu_mem_switch(src_box, dst_box)` -/
  | mem_switch (src_box dst_box : Nat)
  deriving DecidableEq, Repr

/-- How a call ended: it returned to its caller, it reached `HALT_ERROR(reason, ...)`,
or an `assert` failed. -/
inductive Status where
  | returned
  | halted (reason : THaltError)
  | assert_failed
  deriving DecidableEq, Repr

/-- Result of running a `void` function: final status, final state, actions performed. -/
structure Run (σ : Type) where
  status : Status
  st : σ
  trace : List Event

/-- Result of running the `int`-valued page resolver. -/
structure IntRun (σ : Type) where
  ret : Int
  st : σ
  trace : List Event

/-- A run has stopped the device when it did not return. -/
def Status.isHalt : Status → Bool
  | .returned => false
  | .halted _ => true
  | .assert_failed => true

/-! ## External collaborators -/

/-- Registers, constants and functions used by the source file but defined elsewhere.
`W` is the state of everything outside the file (hardware registers, page allocator,
ACL tables). Register reads and lookups are functions of `W`; calls that may change
`W` return the new `W`. -/
structure Env (W : Type) where
  /-- Models `__get_IPSR()` -/
  get_IPSR : W → Nat
  /-- Models `__get_PSP()` -/
  get_PSP : W → Nat
  /-- Models `vmpu_unpriv_uint32_read(addr)` -/
  vmpu_unpriv_uint32_read : Nat → W → Nat
  /-- Models `SCB->BFAR` -/
  SCB_BFAR : W → Nat
  /-- Models `VMPU_SCB_BFSR` read -/
  VMPU_SCB_BFSR : W → Nat
  /-- Models `VMPU_SCB_BFSR = v` -/
  write_VMPU_SCB_BFSR : Nat → W → W
  /-- Models `vmpu_fault_get_slave_port()` -/
  vmpu_fault_get_slave_port : W → Int
  /-- Models `VMPU_FAULT_MULTIPLE` -/
  VMPU_FAULT_MULTIPLE : Int
  /-- Models `MPU->SP[slave_port].EAR` -/
  MPU_SP_EAR : Int → W → Nat
  /-- Models `vmpu_fault_clear_slave_port(slave_port)` -/
  vmpu_fault_clear_slave_port : Int → W → W
  /-- Models `vmpu_fault_recovery_bus(pc, sp, fault_addr, fault_status)` -/
  vmpu_fault_recovery_bus : Nat → Nat → Nat → Nat → W → Int × W
  /-- Models `UVISOR_ERROR_PAGE_OK` -/
  UVISOR_ERROR_PAGE_OK : Int
  /-- Models `page_allocator_get_active_region_for_address(fault_addr, &start, &end, &page)`:
  the return value and the three out-parameters. -/
  page_allocator_get_active_region_for_address : Nat → W → Int × Nat × Nat × Nat
  /-- Models `page_allocator_register_fault(page)` -/
  page_allocator_register_fault : Nat → W → W
  /-- Models `vmpu_mem_push_page_acl(start_addr, end_addr)` -/
  vmpu_mem_push_page_acl : Nat → Nat → W → Int × W
  /-- Models `vmpu_region_add_static_acl(box_id, start, size, acl, 0)` -/
  vmpu_region_add_static_acl : Nat → Nat → Nat → Nat → W → W
  /-- Models `vmpu_is_box_id_valid(box_id)` -/
  vmpu_is_box_id_valid : Nat → W → Bool
  /-- Models `vmpu_aips_switch(src_box, dst_box)` -/
  vmpu_aips_switch : Nat → Nat → W → W
  /-- Models `vmpu_mem_switch(src_box, dst_box)` -/
  vmpu_mem_switch : Nat → Nat → W → W

/-! ## Dynamic page resolver -/

/-- Models `static int vmpu_fault_recovery_mpu(uint32_t pc, uint32_t sp, uint32_t fault_addr)`.
`DPRINTF` produces debug output only and is not modelled. -/
def vmpu_fault_recovery_mpu {W : Type} (E : Env W) (_pc _sp fault_addr : Nat) (w : W) :
    IntRun W :=
  let look := E.page_allocator_get_active_region_for_address fault_addr w
  let start_addr := look.2.1
  let end_addr := look.2.2.1
  let page := look.2.2.2
  if look.1 = E.UVISOR_ERROR_PAGE_OK then
    let w1 := E.page_allocator_register_fault page w
    let push := E.vmpu_mem_push_page_acl start_addr end_addr w1
    if push.1 ≠ 0 then
      { ret := -1, st := push.2,
        trace := [Event.page_lookup fault_addr, Event.register_fault page,
                  Event.push_page_acl start_addr end_addr] }
    else
      { ret := 0, st := push.2,
        trace := [Event.page_lookup fault_addr, Event.register_fault page,
                  Event.push_page_acl start_addr end_addr] }
  else
    { ret := -1, st := w, trace := [Event.page_lookup fault_addr] }

/-! ## Fault dispatcher -/

/-- The stack pointer handed to `DEBUG_FAULT`: `lr & 0x4 ? psp : msp`. -/
def fault_sp (lr psp msp : Nat) : Nat :=
  if lr &&& 4 ≠ 0 then psp else msp

/-- Line 61 of the source: the IPSR value converted to the `*_IRQn` encoding,
`((int) (__get_IPSR() & 0x1FF)) - NVIC_OFFSET`. -/
def active_irqn {W : Type} (E : Env W) (w : W) : Int :=
  ((E.get_IPSR w &&& 0x1FF : Nat) : Int) - NVIC_OFFSET

/-- Actions that belong to a resolver: the page lookup, the fault registration and the
region installation of the dynamic page resolver, and the call of the bus-fault
corner-case resolver. -/
def Event.is_resolver_action : Event → Bool
  | .page_lookup _ => true
  | .register_fault _ => true
  | .push_page_acl _ _ => true
  | .recovery_bus _ _ _ _ => true
  | _ => false

/-- Lines 117-126 of the source, the part of the unprivileged bus-fault path that
follows the MPU branch: the corner-case resolver, then the fatal path. `w` and `pre`
are the world and the trace reached so far. -/
def bus_fault_tail {W : Type} (E : Env W) (lr psp pc fault_addr fault_status : Nat)
    (w : W) (pre : List Event) : Run W :=
  let bus := E.vmpu_fault_recovery_bus pc psp fault_addr fault_status w
  if bus.1 = 0 then
    { status := .returned,
      st := E.write_VMPU_SCB_BFSR fault_status bus.2,
      trace := pre ++ [Event.recovery_bus pc psp fault_addr fault_status,
                       Event.write_BFSR fault_status] }
  else
    { status := .halted .PERMISSION_DENIED,
      st := E.write_VMPU_SCB_BFSR fault_status bus.2,
      trace := pre ++ [Event.recovery_bus pc psp fault_addr fault_status,
                       Event.debug_fault .FAULT_BUS lr psp,
                       Event.write_BFSR fault_status] }

/-- Models `void vmpu_sys_mux_handler(uint32_t lr, uint32_t msp)`.

`DEBUG_FAULT` is the fault-reporting macro of `debug.h`; it is an action that returns
to the handler, as the statements that the source places after it on the bus-fault
paths (`VMPU_SCB_BFSR = fault_status; HALT_ERROR(...)`) require. `HALT_ERROR` never
returns. `DPRINTF` is not modelled, so the branch
`else if (slave_port == VMPU_FAULT_MULTIPLE)`, which only prints, is the plain `else`
here: every negative `slave_port` continues at line 117 with the `BFAR` address. -/
def vmpu_sys_mux_handler {W : Type} (E : Env W) (lr msp : Nat) (w : W) : Run W :=
  let ipsr : Int := active_irqn E w
  let psp := E.get_PSP w
  if ipsr = MemoryManagement_IRQn then
    { status := .returned, st := w,
      trace := [Event.debug_fault .FAULT_MEMMANAGE lr (fault_sp lr psp msp)] }
  else if ipsr = BusFault_IRQn then
    if lr &&& 4 ≠ 0 then
      let pc := E.vmpu_unpriv_uint32_read (u32 (psp + 6 * 4)) w
      let bfar := E.SCB_BFAR w
      let fault_status := E.VMPU_SCB_BFSR w
      let slave_port := E.vmpu_fault_get_slave_port w
      if 0 ≤ slave_port then
        let fault_addr := E.MPU_SP_EAR slave_port w
        let m := vmpu_fault_recovery_mpu E pc psp fault_addr w
        if m.ret = 0 then
          { status := .returned,
            st := E.vmpu_fault_clear_slave_port slave_port
                    (E.write_VMPU_SCB_BFSR fault_status m.st),
            trace := m.trace ++ [Event.write_BFSR fault_status,
                                 Event.clear_slave_port slave_port] }
        else
          bus_fault_tail E lr psp pc fault_addr fault_status m.st m.trace
      else
        bus_fault_tail E lr psp pc bfar fault_status w []
    else
      { status := .halted .FAULT_BUS, st := w,
        trace := [Event.debug_fault .FAULT_BUS lr msp] }
  else if ipsr = UsageFault_IRQn then
    { status := .returned, st := w,
      trace := [Event.debug_fault .FAULT_USAGE lr (fault_sp lr psp msp)] }
  else if ipsr = HardFault_IRQn then
    { status := .returned, st := w,
      trace := [Event.debug_fault .FAULT_HARD lr (fault_sp lr psp msp)] }
  else if ipsr = DebugMonitor_IRQn then
    { status := .returned, st := w,
      trace := [Event.debug_fault .FAULT_DEBUG lr (fault_sp lr psp msp)] }
  else if ipsr = PendSV_IRQn then
    { status := .halted .NOT_IMPLEMENTED, st := w, trace := [] }
  else if ipsr = SysTick_IRQn then
    { status := .halted .NOT_IMPLEMENTED, st := w, trace := [] }
  else
    { status := .halted .NOT_ALLOWED, st := w, trace := [] }

/-! ## Box memory layout manager -/

/-- Platform and linker constants used by `vmpu_acl_stack`; their defining headers are
not part of the verified sources, so they are parameters. -/
structure Config where
  /-- Region-alignment granularity of `UVISOR_REGION_ROUND_UP`. -/
  UVISOR_REGION_SIZE : Nat
  /-- Minimum stack size applied by `UVISOR_MIN_STACK`. -/
  UVISOR_MIN_STACK_SIZE : Nat
  /-- Guard band `UVISOR_STACK_BAND_SIZE`. -/
  UVISOR_STACK_BAND_SIZE : Nat
  /-- Linker value `__uvisor_config.bss_boxes_start`. -/
  bss_boxes_start : Nat
  /-- Linker value `__uvisor_config.heap_start`. -/
  heap_start : Nat
  /-- Permission mask `UVISOR_TACLDEF_STACK`. -/
  UVISOR_TACLDEF_STACK : Nat
  /-- Permission mask `UVISOR_TACLDEF_DATA`. -/
  UVISOR_TACLDEF_DATA : Nat

/-- Modelled from the spec: the macro `UVISOR_REGION_ROUND_UP` (header absent) rounds a
size or address up to the region-alignment granularity; the addition is a `uint32_t`
addition. For a power-of-two granularity this is `(x + (G - 1)) & ~(G - 1)`. -/
def UVISOR_REGION_ROUND_UP (cfg : Config) (x : Nat) : Nat :=
  u32 (x + (cfg.UVISOR_REGION_SIZE - 1)) / cfg.UVISOR_REGION_SIZE * cfg.UVISOR_REGION_SIZE

/-- Modelled from the spec: the macro `UVISOR_MIN_STACK` (header absent) raises a
requested stack size to the platform minimum stack size. -/
def UVISOR_MIN_STACK (cfg : Config) (x : Nat) : Nat :=
  if x < cfg.UVISOR_MIN_STACK_SIZE then cfg.UVISOR_MIN_STACK_SIZE else x

/-- One entry of `g_context_current_states`: the two fields the source file writes. -/
structure TContextState where
  sp : Nat
  bss : Nat
  deriving DecidableEq, Repr

/-- The state the source file owns, plus the external world.
`g_box_mem_pos` is the file-scope variable of line 31; `acl_stack_g_box_mem_pos` is the
function-local `static uint32_t g_box_mem_pos` of line 163, which shadows it inside
`vmpu_acl_stack`. `mem` is byte-addressed memory. -/
structure Machine (W : Type) where
  g_box_mem_pos : Nat
  acl_stack_g_box_mem_pos : Nat
  g_context_current_states : Nat → TContextState
  mem : Nat → Nat
  world : W

/-- Models `memset((void *) addr, 0, size)` on byte-addressed memory. -/
def memset_zero (mem : Nat → Nat) (addr size : Nat) : Nat → Nat :=
  fun a => if addr ≤ a ∧ a < addr + size then 0 else mem a

/-- Assignment to one field-pair of `g_context_current_states[box_id]`. -/
def set_context (ctx : Nat → TContextState) (box_id : Nat) (c : TContextState) :
    Nat → TContextState :=
  fun i => if i = box_id then c else ctx i

/-- The arena cursor after the lazy initialisation of lines 180-185. -/
def cursor_at_use (cfg : Config) (pos : Nat) : Nat :=
  if pos = 0 then
    u32 (UVISOR_REGION_ROUND_UP cfg cfg.bss_boxes_start + cfg.UVISOR_STACK_BAND_SIZE)
  else pos

/-- Models `void vmpu_acl_stack(uint8_t box_id, uint32_t bss_size, uint32_t stack_size)`.
A failed `assert` stops the run at that point (status `assert_failed`) with the state
and trace reached so far. `DPRINTF` is not modelled. -/
def vmpu_acl_stack {W : Type} (cfg : Config) (E : Env W) (box_id bss_size stack_size : Nat)
    (m : Machine W) : Run (Machine W) :=
  if box_id = 0 then
    if stack_size ≠ 0 then
      { status := .assert_failed, st := m, trace := [] }
    else
      let ctx1 := set_context m.g_context_current_states 0
        { m.g_context_current_states 0 with sp := E.get_PSP m.world }
      let ctx2 := set_context ctx1 0 { ctx1 0 with bss := cfg.heap_start }
      { status := .returned, st := { m with g_context_current_states := ctx2 }, trace := [] }
  else
    let pos0 := cursor_at_use cfg m.acl_stack_g_box_mem_pos
    let stack_size := UVISOR_REGION_ROUND_UP cfg (UVISOR_MIN_STACK cfg stack_size)
    let w1 := E.vmpu_region_add_static_acl box_id pos0 stack_size cfg.UVISOR_TACLDEF_STACK
      m.world
    let pos1 := u32 (pos0 + stack_size)
    let ctx1 := set_context m.g_context_current_states box_id
      { m.g_context_current_states box_id with sp := pos1 }
    let pos2 := u32 (pos1 + cfg.UVISOR_STACK_BAND_SIZE)
    if bss_size = 0 then
      { status := .assert_failed,
        st := { m with acl_stack_g_box_mem_pos := pos2, g_context_current_states := ctx1,
                       world := w1 },
        trace := [Event.add_static_acl box_id pos0 stack_size cfg.UVISOR_TACLDEF_STACK] }
    else
      let bss_size := UVISOR_REGION_ROUND_UP cfg bss_size
      let ctx2 := set_context ctx1 box_id { ctx1 box_id with bss := pos2 }
      let mem1 := memset_zero m.mem pos2 bss_size
      let w2 := E.vmpu_region_add_static_acl box_id pos2 bss_size cfg.UVISOR_TACLDEF_DATA w1
      let pos3 := u32 (pos2 + u32 (bss_size + cfg.UVISOR_STACK_BAND_SIZE))
      { status := .returned,
        st := { m with acl_stack_g_box_mem_pos := pos3, g_context_current_states := ctx2,
                       mem := mem1, world := w2 },
        trace := [Event.add_static_acl box_id pos0 stack_size cfg.UVISOR_TACLDEF_STACK,
                  Event.memset_zero pos2 bss_size,
                  Event.add_static_acl box_id pos2 bss_size cfg.UVISOR_TACLDEF_DATA] }

/-- Arguments of one `vmpu_acl_stack` call. -/
structure LayoutCall where
  box_id : Nat
  bss_size : Nat
  stack_size : Nat
  deriving DecidableEq, Repr

/-- A sequence of `vmpu_acl_stack` calls made one after the other during bring-up; a
call that does not return ends the sequence, since a halt is terminal. -/
def run_acl_stack {W : Type} (cfg : Config) (E : Env W) :
    List LayoutCall → Machine W → Run (Machine W)
  | [], m => { status := .returned, st := m, trace := [] }
  | c :: rest, m =>
    let r := vmpu_acl_stack cfg E c.box_id c.bss_size c.stack_size m
    match r.status with
    | .returned =>
      let r2 := run_acl_stack cfg E rest r.st
      { status := r2.status, st := r2.st, trace := r.trace ++ r2.trace }
    | _ => r

/-- A static region `[start, start + size)` registered for `box_id`. -/
structure StaticRegion where
  box_id : Nat
  start : Nat
  size : Nat
  deriving DecidableEq, Repr

/-- The static regions registered by a trace, in registration order. -/
def static_regions : List Event → List StaticRegion
  | [] => []
  | Event.add_static_acl b s n _ :: t => { box_id := b, start := s, size := n } :: static_regions t
  | _ :: t => static_regions t

/-- Address `a` lies in the region `[start, start + size)`. -/
def StaticRegion.contains (r : StaticRegion) (a : Nat) : Prop :=
  r.start ≤ a ∧ a < r.start + r.size

/-- Two regions share no address. -/
def StaticRegion.disjoint (r1 r2 : StaticRegion) : Prop :=
  ∀ a : Nat, ¬ (r1.contains a ∧ r2.contains a)

/-- The advances of the arena cursor made by a `vmpu_acl_stack` call for a non-zero
box do not wrap around: the last cursor position, computed without reduction, is a
`uint32_t` value. -/
def cursor_fits (cfg : Config) (pos bss_size stack_size : Nat) : Prop :=
  cursor_at_use cfg pos + UVISOR_REGION_ROUND_UP cfg (UVISOR_MIN_STACK cfg stack_size)
    + cfg.UVISOR_STACK_BAND_SIZE + UVISOR_REGION_ROUND_UP cfg bss_size
    + cfg.UVISOR_STACK_BAND_SIZE < 4294967296

instance cursor_fits_decidable (cfg : Config) (pos bss_size stack_size : Nat) :
    Decidable (cursor_fits cfg pos bss_size stack_size) := by
  unfold cursor_fits
  infer_instance

/-- Every call of a bring-up sequence for a non-zero box keeps the cursor from
wrapping, at the cursor position the sequence has reached when the call is made. -/
def cursor_fits_seq {W : Type} (cfg : Config) (E : Env W) :
    List LayoutCall → Machine W → Prop
  | [], _ => True
  | c :: rest, m =>
    (c.box_id ≠ 0 → cursor_fits cfg m.acl_stack_g_box_mem_pos c.bss_size c.stack_size) ∧
    cursor_fits_seq cfg E rest (vmpu_acl_stack cfg E c.box_id c.bss_size c.stack_size m).st

instance cursor_fits_seq_decidable {W : Type} (cfg : Config) (E : Env W) :
    (calls : List LayoutCall) → (m : Machine W) → Decidable (cursor_fits_seq cfg E calls m)
  | [], _ => isTrue trivial
  | c :: rest, m =>
    @instDecidableAnd _ _ inferInstance
      (cursor_fits_seq_decidable cfg E rest
        (vmpu_acl_stack cfg E c.box_id c.bss_size c.stack_size m).st)

/-! ## Box switch and box load -/

/-- Models `void vmpu_switch(uint8_t src_box, uint8_t dst_box)`. -/
def vmpu_switch {W : Type} (E : Env W) (src_box dst_box : Nat) (m : Machine W) :
    Run (Machine W) :=
  if !E.vmpu_is_box_id_valid src_box m.world then
    { status := .halted .SANITY_CHECK_FAILED, st := m, trace := [] }
  else if !E.vmpu_is_box_id_valid dst_box m.world then
    { status := .halted .SANITY_CHECK_FAILED, st := m, trace := [] }
  else
    let w1 := E.vmpu_aips_switch src_box dst_box m.world
    let w2 := E.vmpu_mem_switch src_box dst_box w1
    { status := .returned, st := { m with world := w2 },
      trace := [Event.aips_switch src_box dst_box, Event.mem_switch src_box dst_box] }

/-- Models `void vmpu_load_box(uint8_t box_id)`. `DPRINTF` is not modelled. -/
def vmpu_load_box {W : Type} (E : Env W) (box_id : Nat) (m : Machine W) : Run (Machine W) :=
  if box_id ≠ 0 then
    { status := .halted .NOT_IMPLEMENTED, st := m, trace := [] }
  else
    { status := .returned,
      st := { m with world := E.vmpu_aips_switch box_id box_id m.world },
      trace := [Event.aips_switch box_id box_id] }

/-! ## A concrete board used to evaluate the model -/

/-- A small concrete external world: fault registers, one page owned by the active
box, the installed page regions, and the number of configured boxes. -/
structure Board where
  ipsr : Nat
  psp : Nat
  bfar : Nat
  bfsr : Nat
  slave_port : Int
  ear : Nat
  page_start : Nat
  page_end : Nat
  page_id : Nat
  fault_count : Nat
  installed : List (Nat × Nat)
  slots : Nat
  bus_ok : Bool
  box_count : Nat
  static_acls : List (Nat × Nat × Nat × Nat)
  active_aips : Nat
  active_mem : Nat
  deriving DecidableEq, Repr

/-- The collaborators over `Board`: the page allocator owns the single page
`[page_start, page_end)`, installing a region needs a free slot, a box ID is valid
when it is below `box_count`. -/
def boardEnv : Env Board where
  get_IPSR := fun b => b.ipsr
  get_PSP := fun b => b.psp
  vmpu_unpriv_uint32_read := fun a _ => a
  SCB_BFAR := fun b => b.bfar
  VMPU_SCB_BFSR := fun b => b.bfsr
  write_VMPU_SCB_BFSR := fun v b => { b with bfsr := b.bfsr ^^^ (b.bfsr &&& v) }
  vmpu_fault_get_slave_port := fun b => b.slave_port
  VMPU_FAULT_MULTIPLE := -2
  MPU_SP_EAR := fun _ b => b.ear
  vmpu_fault_clear_slave_port := fun _ b => { b with slave_port := -1 }
  vmpu_fault_recovery_bus := fun _ _ _ _ b => (if b.bus_ok then 0 else -1, b)
  UVISOR_ERROR_PAGE_OK := 0
  page_allocator_get_active_region_for_address := fun a b =>
    if b.page_start ≤ a ∧ a < b.page_end then (0, b.page_start, b.page_end, b.page_id)
    else (-1, 0, 0, 0)
  page_allocator_register_fault := fun _ b => { b with fault_count := b.fault_count + 1 }
  vmpu_mem_push_page_acl := fun s e b =>
    if b.installed.length < b.slots then (0, { b with installed := (s, e) :: b.installed })
    else (-1, b)
  vmpu_region_add_static_acl := fun box s n acl b =>
    { b with static_acls := b.static_acls ++ [(box, s, n, acl)] }
  vmpu_is_box_id_valid := fun box b => decide (box < b.box_count)
  vmpu_aips_switch := fun _ dst b => { b with active_aips := dst }
  vmpu_mem_switch := fun _ dst b => { b with active_mem := dst }

/-- A board in the middle of a bus fault (IPSR 5) raised by MPU slave port 1 for an
address inside the active box's page. -/
def board0 : Board where
  ipsr := 5
  psp := 0x20002000
  bfar := 0x40000000
  bfsr := 0x82
  slave_port := 1
  ear := 0x20010010
  page_start := 0x20010000
  page_end := 0x20012000
  page_id := 3
  fault_count := 0
  installed := []
  slots := 2
  bus_ok := false
  box_count := 3
  static_acls := []
  active_aips := 0
  active_mem := 0

/-- The board `board0` when the MPU reports multiple violations and the corner-case
resolver fails: no resolver can repair the fault. -/
def board_unresolved : Board := { board0 with slave_port := -2 }

/-- The board `board0` with the PendSV exception active (IPSR 14). -/
def board_pendsv : Board := { board0 with ipsr := 14 }

/-- The board `board0` with the memory-management fault active (IPSR 4). -/
def board_memmanage : Board := { board0 with ipsr := 4 }

/-- The platform of the layout scenario of the specification: 32-byte granularity,
4096-byte minimum stack, 1024-byte guard band. -/
def cfg0 : Config where
  UVISOR_REGION_SIZE := 32
  UVISOR_MIN_STACK_SIZE := 4096
  UVISOR_STACK_BAND_SIZE := 1024
  bss_boxes_start := 0x20000000
  heap_start := 0x20030000
  UVISOR_TACLDEF_STACK := 0x1B
  UVISOR_TACLDEF_DATA := 0x1B

/-- The machine at the start of bring-up: both cursors zero, contexts zero, memory
holding stale bytes (every byte `0xFF`). -/
def machine0 : Machine Board where
  g_box_mem_pos := 0
  acl_stack_g_box_mem_pos := 0
  g_context_current_states := fun _ => { sp := 0, bss := 0 }
  mem := fun _ => 0xFF
  world := board0

/-- The machine after box 1 of the layout scenario (`data = 256`, `stack = 512`) has
been laid out from `machine0`. -/
def machine1 : Machine Board :=
  (vmpu_acl_stack cfg0 boardEnv 1 256 512 machine0).st

/-- A bring-up sequence whose cursor arithmetic wraps: box 1 asks for a data region
of `0xFFFFE800` bytes, then box 2 is laid out as in the layout scenario. -/
def calls_wrapping : List LayoutCall :=
  [{ box_id := 1, bss_size := 0xFFFFE800, stack_size := 512 },
   { box_id := 2, bss_size := 256, stack_size := 512 }]

/-- A bring-up sequence in box-ID order that fits the address space: box 0, then
box 1 as in the layout scenario, then box 2 with a larger stack. -/
def calls_fitting : List LayoutCall :=
  [{ box_id := 0, bss_size := 0, stack_size := 0 },
   { box_id := 1, bss_size := 256, stack_size := 512 },
   { box_id := 2, bss_size := 512, stack_size := 8192 }]

/-! ## Static ACL resolver -/

/-- Constants, macros, the global `g_active_box` and the peripheral ACL table used by
`vmpu_fault_find_acl`; their defining headers and files are not part of the verified
sources, so they are parameters. -/
structure AclEnv (W : Type) where
  /-- Address of the system control register, `(uint32_t) &SCB->SCR`. -/
  SCB_SCR : Nat
  /-- Permission bit `UVISOR_TACL_UWRITE`. -/
  UVISOR_TACL_UWRITE : Nat
  /-- Permission bit `UVISOR_TACL_UREAD`. -/
  UVISOR_TACL_UREAD : Nat
  /-- First address of the peripheral bit-band alias window. -/
  VMPU_PERIPH_BITBAND_START : Nat
  /-- Last address of the peripheral bit-band alias window. -/
  VMPU_PERIPH_BITBAND_END : Nat
  /-- Macro `VMPU_PERIPH_BITBAND_ALIAS_TO_ADDR`, the peripheral alias-to-physical map. -/
  VMPU_PERIPH_BITBAND_ALIAS_TO_ADDR : Nat → Nat
  /-- First address of the SRAM bit-band alias window. -/
  VMPU_SRAM_BITBAND_START : Nat
  /-- Last address of the SRAM bit-band alias window. -/
  VMPU_SRAM_BITBAND_END : Nat
  /-- Macro `VMPU_SRAM_BITBAND_ALIAS_TO_ADDR`, the SRAM alias-to-physical map. -/
  VMPU_SRAM_BITBAND_ALIAS_TO_ADDR : Nat → Nat
  /-- Base address `AIPS0_BASE` of the peripheral bridge. -/
  AIPS0_BASE : Nat
  /-- Size `AIPSx_SLOT_SIZE` of one peripheral slot. -/
  AIPSx_SLOT_SIZE : Nat
  /-- Global `g_active_box`, read from the external world. -/
  g_active_box : W → Nat
  /-- Peripheral ACL table lookup `vmpu_fault_find_acl_aips(box_id, addr, size)`. -/
  vmpu_fault_find_acl_aips : Nat → Nat → Nat → W → Nat

/-- Result of running the static ACL resolver: the returned permission mask, the final
state, the value of the local `fault_addr` on reaching the ACL lookup of line 267
(`none` when the function has returned before the translation step), and the
consultations `(box_id, addr, size)` of the peripheral ACL table. -/
structure AclRun (σ : Type) where
  ret : Nat
  st : σ
  lookup_addr : Option Nat
  lookups : List (Nat × Nat × Nat)

/-- The end of the peripheral bridge range, `AIPS0_BASE + 0xFEUL * AIPSx_SLOT_SIZE`,
in `unsigned long` (32-bit) arithmetic. -/
def aips_end {W : Type} (A : AclEnv W) : Nat :=
  u32 (A.AIPS0_BASE + u32 (0xFE * A.AIPSx_SLOT_SIZE))

/-- Lines 259-265 of the source: the translation of `fault_addr` into its physical
address when it lies in a bit-band alias window. -/
def bitband_translate {W : Type} (A : AclEnv W) (fault_addr : Nat) : Nat :=
  if A.VMPU_PERIPH_BITBAND_START ≤ fault_addr ∧ fault_addr ≤ A.VMPU_PERIPH_BITBAND_END then
    A.VMPU_PERIPH_BITBAND_ALIAS_TO_ADDR fault_addr
  else if A.VMPU_SRAM_BITBAND_START ≤ fault_addr ∧
      fault_addr ≤ A.VMPU_SRAM_BITBAND_END then
    A.VMPU_SRAM_BITBAND_ALIAS_TO_ADDR fault_addr
  else fault_addr

/-- Models `uint32_t vmpu_fault_find_acl(uint32_t fault_addr, uint32_t size)`. -/
def vmpu_fault_find_acl {W : Type} (A : AclEnv W) (fault_addr size : Nat) (m : Machine W) :
    AclRun (Machine W) :=
  if fault_addr = A.SCB_SCR then
    { ret := A.UVISOR_TACL_UWRITE ||| A.UVISOR_TACL_UREAD, st := m,
      lookup_addr := none, lookups := [] }
  else
    let fault_addr := bitband_translate A fault_addr
    if A.AIPS0_BASE ≤ fault_addr ∧ fault_addr < aips_end A then
      { ret := A.vmpu_fault_find_acl_aips (A.g_active_box m.world) fault_addr size m.world,
        st := m, lookup_addr := some fault_addr,
        lookups := [(A.g_active_box m.world, fault_addr, size)] }
    else
      { ret := 0, st := m, lookup_addr := some fault_addr, lookups := [] }

/-- The static resolver's collaborators on a Kinetis K64 (ARMv7-M): the SCR at
`0xE000ED10`, the bit-band alias windows `0x42000000-0x43FFFFFF` and
`0x22000000-0x23FFFFFF` mapping 32 alias bytes onto one byte of the regions at
`0x40000000` and `0x20000000` (word-aligned), the peripheral bridge at `0x40000000`
with 4 KiB slots, and a table that grants box 0 read and write access to the slot at
`0x4006A000`. -/
def k64Acl : AclEnv Board where
  SCB_SCR := 0xE000ED10
  UVISOR_TACL_UWRITE := 0x2
  UVISOR_TACL_UREAD := 0x4
  VMPU_PERIPH_BITBAND_START := 0x42000000
  VMPU_PERIPH_BITBAND_END := 0x43FFFFFF
  VMPU_PERIPH_BITBAND_ALIAS_TO_ADDR := fun a => (a - 0x42000000) / 32 / 4 * 4 + 0x40000000
  VMPU_SRAM_BITBAND_START := 0x22000000
  VMPU_SRAM_BITBAND_END := 0x23FFFFFF
  VMPU_SRAM_BITBAND_ALIAS_TO_ADDR := fun a => (a - 0x22000000) / 32 / 4 * 4 + 0x20000000
  AIPS0_BASE := 0x40000000
  AIPSx_SLOT_SIZE := 0x1000
  g_active_box := fun b => b.active_mem
  vmpu_fault_find_acl_aips := fun box addr _ _ =>
    if box = 0 ∧ 0x4006A000 ≤ addr ∧ addr < 0x4006B000 then 0x6 else 0

/-! ## Collaborators of the page resolver, from the specification -/

/-- Modelled from the spec: the page allocator lookup
`find_owning_region(address) -> (start, end, page_id) | not_found`
(`page_allocator_get_active_region_for_address`, absent from the sources). The active
box owns the single page `[page_start, page_end)` of the board; the lookup reads the
allocator and changes nothing. -/
def find_owning_region (a : Nat) (b : Board) : Int × Nat × Nat × Nat :=
  if b.page_start ≤ a ∧ a < b.page_end then (0, b.page_start, b.page_end, b.page_id)
  else (-1, 0, 0, 0)

/-- Modelled from the spec: installation of a dynamic region in the hardware region
table (`vmpu_mem_push_page_acl`, absent from the sources). The table is a small
fixed-capacity slot set (section 9). A region that is already installed is left as it
is and the request succeeds (section 4.2: re-faulting must be a no-op or succeed
identically). Otherwise a free slot is taken; when no slot is free the oldest dynamic
region is evicted to make room (section 3: dynamic regions are evictable); and when
the table has no slot at all for dynamic regions the installation fails (section 4.2:
no free hardware region slot). -/
def install_region (start_addr end_addr : Nat) (b : Board) : Int × Board :=
  if (start_addr, end_addr) ∈ b.installed then (0, b)
  else if b.installed.length < b.slots then
    (0, { b with installed := (start_addr, end_addr) :: b.installed })
  else if b.slots = 0 then (-1, b)
  else (0, { b with installed := (start_addr, end_addr) :: b.installed.take (b.slots - 1) })

/-- The collaborators `boardEnv` with the page allocator lookup and the region
installation taken from the specification. -/
def specEnv : Env Board :=
  { boardEnv with
    page_allocator_get_active_region_for_address := find_owning_region
    vmpu_mem_push_page_acl := install_region }

/-- The board `board0` with a single hardware region slot left. -/
def board_one_slot : Board := { board0 with slots := 1 }

/-- The board `board0` with no hardware region slot for dynamic regions. -/
def board_no_slot : Board := { board0 with slots := 0 }

/-! ## Fault dispatcher: theorems -/

/-- The trace of the dynamic page resolver holds no call of the corner-case resolver,
no status write and no slave-port clear: only its own three actions. -/
theorem recovery_mpu_trace_cases {W : Type} (E : Env W) (pc sp fault_addr : Nat) (w : W) :
    let look := E.page_allocator_get_active_region_for_address fault_addr w
    (vmpu_fault_recovery_mpu E pc sp fault_addr w).trace = [Event.page_lookup fault_addr] ∨
    (vmpu_fault_recovery_mpu E pc sp fault_addr w).trace =
      [Event.page_lookup fault_addr, Event.register_fault look.2.2.2,
       Event.push_page_acl look.2.1 look.2.2.1] := by
  intro look
  by_cases h1 : look.1 = E.UVISOR_ERROR_PAGE_OK <;>
  by_cases h2 : (E.vmpu_mem_push_page_acl look.2.1 look.2.2.1
      (E.page_allocator_register_fault look.2.2.2 w)).1 = 0 <;>
  simp [vmpu_fault_recovery_mpu, look] at h1 h2 ⊢ <;> simp [h1, h2]

/-- Shape of the run of the tail of the unprivileged bus-fault path. -/
theorem bus_fault_tail_status {W : Type} (E : Env W) (lr psp pc fa fs : Nat) (w : W)
    (pre : List Event) :
    ((bus_fault_tail E lr psp pc fa fs w pre).status = .halted .PERMISSION_DENIED ↔
      (E.vmpu_fault_recovery_bus pc psp fa fs w).1 ≠ 0) ∧
    ((E.vmpu_fault_recovery_bus pc psp fa fs w).1 = 0 →
      (bus_fault_tail E lr psp pc fa fs w pre).status = .returned) ∧
    ((E.vmpu_fault_recovery_bus pc psp fa fs w).1 ≠ 0 →
      (bus_fault_tail E lr psp pc fa fs w pre).trace =
        pre ++ [Event.recovery_bus pc psp fa fs, Event.debug_fault .FAULT_BUS lr psp,
                Event.write_BFSR fs]) := by
  unfold bus_fault_tail
  by_cases h : (E.vmpu_fault_recovery_bus pc psp fa fs w).1 = 0 <;> simp [h]

/-- A trace extended by three actions ends with the third. -/
theorem append_three_ends (pre : List Event) (a b c : Event) :
    ∃ p, pre ++ [a, b, c] = p ++ [c] :=
  ⟨pre ++ [a, b], by simp⟩

/-- The tail of the unprivileged bus-fault path either returns or ends in the
permission-denied halt, the write of the saved status being its last action. -/
theorem bus_fault_tail_cases {W : Type} (E : Env W) (lr psp pc fa fs : Nat) (w : W)
    (pre : List Event) :
    (bus_fault_tail E lr psp pc fa fs w pre).status = .returned ∨
    ((bus_fault_tail E lr psp pc fa fs w pre).status = .halted .PERMISSION_DENIED ∧
     (bus_fault_tail E lr psp pc fa fs w pre).trace =
        pre ++ [Event.recovery_bus pc psp fa fs, Event.debug_fault .FAULT_BUS lr psp,
                Event.write_BFSR fs]) := by
  unfold bus_fault_tail
  by_cases h : (E.vmpu_fault_recovery_bus pc psp fa fs w).1 = 0 <;> simp [h]

/-- The run of the tail of the unprivileged bus-fault path, in full: when the
corner-case resolver succeeds the handler writes the saved status to the bus-fault
status register and returns; when it fails the handler reports the fault, writes the
saved status and halts. In both cases the final world is the world left by the
resolver with the status write applied. -/
theorem bus_fault_tail_run {W : Type} (E : Env W) (lr psp pc fa fs : Nat) (w : W)
    (pre : List Event) :
    ((E.vmpu_fault_recovery_bus pc psp fa fs w).1 = 0 →
      bus_fault_tail E lr psp pc fa fs w pre =
        { status := .returned,
          st := E.write_VMPU_SCB_BFSR fs (E.vmpu_fault_recovery_bus pc psp fa fs w).2,
          trace := pre ++ [Event.recovery_bus pc psp fa fs, Event.write_BFSR fs] }) ∧
    ((E.vmpu_fault_recovery_bus pc psp fa fs w).1 ≠ 0 →
      bus_fault_tail E lr psp pc fa fs w pre =
        { status := .halted .PERMISSION_DENIED,
          st := E.write_VMPU_SCB_BFSR fs (E.vmpu_fault_recovery_bus pc psp fa fs w).2,
          trace := pre ++ [Event.recovery_bus pc psp fa fs,
                           Event.debug_fault .FAULT_BUS lr psp, Event.write_BFSR fs] }) := by
  unfold bus_fault_tail
  constructor
  · intro h
    simp only [h, if_true]
  · intro h
    simp only [h, if_false]

/-- The handler on the unprivileged bus-fault path (lines 86-127), with the dispatch
on the interrupt number and on the link register resolved. -/
theorem handler_unprivileged_bus_fault {W : Type} (E : Env W) (lr msp : Nat) (w : W)
    (hirq : active_irqn E w = BusFault_IRQn) (hlr : lr &&& 4 ≠ 0) :
    vmpu_sys_mux_handler E lr msp w =
      if 0 ≤ E.vmpu_fault_get_slave_port w then
        (if (vmpu_fault_recovery_mpu E
              (E.vmpu_unpriv_uint32_read (u32 (E.get_PSP w + 6 * 4)) w) (E.get_PSP w)
              (E.MPU_SP_EAR (E.vmpu_fault_get_slave_port w) w) w).ret = 0 then
          { status := .returned,
            st := E.vmpu_fault_clear_slave_port (E.vmpu_fault_get_slave_port w)
              (E.write_VMPU_SCB_BFSR (E.VMPU_SCB_BFSR w)
                (vmpu_fault_recovery_mpu E
                  (E.vmpu_unpriv_uint32_read (u32 (E.get_PSP w + 6 * 4)) w) (E.get_PSP w)
                  (E.MPU_SP_EAR (E.vmpu_fault_get_slave_port w) w) w).st),
            trace := (vmpu_fault_recovery_mpu E
                  (E.vmpu_unpriv_uint32_read (u32 (E.get_PSP w + 6 * 4)) w) (E.get_PSP w)
                  (E.MPU_SP_EAR (E.vmpu_fault_get_slave_port w) w) w).trace ++
                [Event.write_BFSR (E.VMPU_SCB_BFSR w),
                 Event.clear_slave_port (E.vmpu_fault_get_slave_port w)] }
        else bus_fault_tail E lr (E.get_PSP w)
          (E.vmpu_unpriv_uint32_read (u32 (E.get_PSP w + 6 * 4)) w)
          (E.MPU_SP_EAR (E.vmpu_fault_get_slave_port w) w) (E.VMPU_SCB_BFSR w)
          (vmpu_fault_recovery_mpu E
            (E.vmpu_unpriv_uint32_read (u32 (E.get_PSP w + 6 * 4)) w) (E.get_PSP w)
            (E.MPU_SP_EAR (E.vmpu_fault_get_slave_port w) w) w).st
          (vmpu_fault_recovery_mpu E
            (E.vmpu_unpriv_uint32_read (u32 (E.get_PSP w + 6 * 4)) w) (E.get_PSP w)
            (E.MPU_SP_EAR (E.vmpu_fault_get_slave_port w) w) w).trace)
      else bus_fault_tail E lr (E.get_PSP w)
        (E.vmpu_unpriv_uint32_read (u32 (E.get_PSP w + 6 * 4)) w) (E.SCB_BFAR w)
        (E.VMPU_SCB_BFSR w) w [] := by
  have h1 : BusFault_IRQn ≠ MemoryManagement_IRQn := by decide
  unfold vmpu_sys_mux_handler
  simp only [hirq, h1, if_false, if_true, hlr, ne_eq, not_false_eq_true]

/-- The handler on the privileged bus-fault path (lines 128-132). -/
theorem privileged_bus_fault_halts_aux {W : Type} (E : Env W) (lr msp : Nat) (w : W)
    (hirq : active_irqn E w = BusFault_IRQn) (hlr : lr &&& 4 = 0) :
    vmpu_sys_mux_handler E lr msp w =
      { status := .halted .FAULT_BUS, st := w,
        trace := [Event.debug_fault .FAULT_BUS lr msp] } := by
  have h1 : BusFault_IRQn ≠ MemoryManagement_IRQn := by decide
  simp [vmpu_sys_mux_handler, hirq, hlr, h1]

/-- C1. A bus fault taken from privileged code (`lr & 0x4 == 0`) always halts, with
`FAULT_BUS`, whatever the fault registers, the MPU syndrome and the page allocator
hold: the only action is the fault report with the main stack pointer, no resolver
action occurs (so no region is installed) and the external world is unchanged. -/
theorem privileged_bus_fault_halts {W : Type} (E : Env W) (lr msp : Nat) (w : W)
    (hirq : active_irqn E w = BusFault_IRQn) (hlr : lr &&& 4 = 0) :
    (vmpu_sys_mux_handler E lr msp w).status = .halted .FAULT_BUS ∧
    (vmpu_sys_mux_handler E lr msp w).trace = [Event.debug_fault .FAULT_BUS lr msp] ∧
    (∀ e ∈ (vmpu_sys_mux_handler E lr msp w).trace, e.is_resolver_action = false) ∧
    (vmpu_sys_mux_handler E lr msp w).st = w := by
  have h1 : BusFault_IRQn ≠ MemoryManagement_IRQn := by decide
  simp [vmpu_sys_mux_handler, hirq, hlr, h1, Event.is_resolver_action]

/-- Witness of C1 on the concrete board, with the exception return value `0xFFFFFFF1`
(return to handler mode, main stack). -/
theorem privileged_bus_fault_halts_witness :
    (active_irqn boardEnv board0 = BusFault_IRQn ∧ 0xFFFFFFF1 &&& 4 = 0) ∧
    ((vmpu_sys_mux_handler boardEnv 0xFFFFFFF1 0x2000 board0).status = .halted .FAULT_BUS ∧
     (vmpu_sys_mux_handler boardEnv 0xFFFFFFF1 0x2000 board0).trace =
       [Event.debug_fault .FAULT_BUS 0xFFFFFFF1 0x2000] ∧
     (∀ e ∈ (vmpu_sys_mux_handler boardEnv 0xFFFFFFF1 0x2000 board0).trace,
        e.is_resolver_action = false) ∧
     (vmpu_sys_mux_handler boardEnv 0xFFFFFFF1 0x2000 board0).st = board0) :=
  ⟨⟨by decide, by decide⟩,
   privileged_bus_fault_halts boardEnv 0xFFFFFFF1 0x2000 board0 (by decide) (by decide)⟩

/-- C2. For an unprivileged bus fault the handler halts, with `PERMISSION_DENIED`,
exactly when no resolver succeeds: the page resolver did not succeed (no single slave
port, or `vmpu_fault_recovery_mpu` failed) and `vmpu_fault_recovery_bus` failed. In
that case, after the call of the corner-case resolver, the handler reports the fault
and, as its last action before the halt, writes the saved status to the bus-fault
status register: the world at the halt is the world left by the resolver with that
write applied. In every other case it returns; when it returns through the corner-case
resolver the same write has been applied. -/
theorem unprivileged_bus_fault_halt_iff {W : Type} (E : Env W) (lr msp : Nat) (w : W)
    (hirq : active_irqn E w = BusFault_IRQn) (hlr : lr &&& 4 ≠ 0) :
    let psp := E.get_PSP w
    let pc := E.vmpu_unpriv_uint32_read (u32 (psp + 6 * 4)) w
    let fs := E.VMPU_SCB_BFSR w
    let p := E.vmpu_fault_get_slave_port w
    let m := vmpu_fault_recovery_mpu E pc psp (E.MPU_SP_EAR p w) w
    let mpu_ok : Prop := 0 ≤ p ∧ m.ret = 0
    let addr : Nat := if 0 ≤ p then E.MPU_SP_EAR p w else E.SCB_BFAR w
    let wb : W := if 0 ≤ p then m.st else w
    let pre : List Event := if 0 ≤ p then m.trace else []
    let bus := E.vmpu_fault_recovery_bus pc psp addr fs wb
    let r := vmpu_sys_mux_handler E lr msp w
    (r.status = .halted .PERMISSION_DENIED ↔ ¬ mpu_ok ∧ bus.1 ≠ 0) ∧
    (¬ mpu_ok ∧ bus.1 ≠ 0 →
      r.trace = pre ++ [Event.recovery_bus pc psp addr fs,
                        Event.debug_fault .FAULT_BUS lr psp, Event.write_BFSR fs] ∧
      r.st = E.write_VMPU_SCB_BFSR fs bus.2) ∧
    (¬ (¬ mpu_ok ∧ bus.1 ≠ 0) → r.status = .returned) ∧
    (¬ mpu_ok ∧ bus.1 = 0 →
      r.trace = pre ++ [Event.recovery_bus pc psp addr fs, Event.write_BFSR fs] ∧
      r.st = E.write_VMPU_SCB_BFSR fs bus.2) := by
  intro psp pc fs p m mpu_ok addr wb pre bus r
  have hr0 := handler_unprivileged_bus_fault E lr msp w hirq hlr
  have hr : r = if 0 ≤ p then
        (if m.ret = 0 then
          { status := .returned,
            st := E.vmpu_fault_clear_slave_port p (E.write_VMPU_SCB_BFSR fs m.st),
            trace := m.trace ++ [Event.write_BFSR fs, Event.clear_slave_port p] }
        else bus_fault_tail E lr psp pc (E.MPU_SP_EAR p w) fs m.st m.trace)
      else bus_fault_tail E lr psp pc (E.SCB_BFAR w) fs w [] := hr0
  have hmo : mpu_ok ↔ (0 ≤ p ∧ m.ret = 0) := Iff.rfl
  have haddr : addr = if 0 ≤ p then E.MPU_SP_EAR p w else E.SCB_BFAR w := rfl
  have hwb : wb = if 0 ≤ p then m.st else w := rfl
  have hpre : pre = if 0 ≤ p then m.trace else [] := rfl
  have hbus : bus = E.vmpu_fault_recovery_bus pc psp addr fs wb := rfl
  clear_value r bus pre wb addr mpu_ok m
  clear hr0
  by_cases hp : 0 ≤ p
  · rw [if_pos hp] at hr haddr hwb hpre
    subst haddr hwb hpre
    by_cases hm : m.ret = 0
    · rw [if_pos hm] at hr
      have hok : mpu_ok := hmo.2 ⟨hp, hm⟩
      subst hr
      refine ⟨?_, ?_, ?_, ?_⟩
      · simp [hok]
      · intro h; exact absurd hok h.1
      · intro _; rfl
      · intro h; exact absurd hok h.1
    · rw [if_neg hm] at hr
      have hnok : ¬ mpu_ok := fun h => hm (hmo.1 h).2
      have ht := bus_fault_tail_run E lr psp pc (E.MPU_SP_EAR p w) fs m.st m.trace
      rw [← hbus] at ht
      by_cases hb : bus.1 = 0
      · rw [ht.1 hb] at hr
        subst hr
        refine ⟨?_, ?_, ?_, ?_⟩
        · simp [hb]
        · intro h; exact absurd hb h.2
        · intro _; rfl
        · intro _; exact ⟨rfl, rfl⟩
      · rw [ht.2 hb] at hr
        subst hr
        refine ⟨?_, ?_, ?_, ?_⟩
        · simp [hnok, hb]
        · intro _; exact ⟨rfl, rfl⟩
        · intro h; exact absurd ⟨hnok, hb⟩ h
        · intro h; exact absurd h.2 hb
  · rw [if_neg hp] at hr haddr hwb hpre
    subst haddr hpre
    rw [hwb] at hbus
    clear hwb
    have hnok : ¬ mpu_ok := fun h => hp (hmo.1 h).1
    have ht := bus_fault_tail_run E lr psp pc (E.SCB_BFAR w) fs w []
    rw [← hbus] at ht
    by_cases hb : bus.1 = 0
    · rw [ht.1 hb] at hr
      subst hr
      refine ⟨?_, ?_, ?_, ?_⟩
      · simp [hb]
      · intro h; exact absurd hb h.2
      · intro _; rfl
      · intro _; exact ⟨rfl, rfl⟩
    · rw [ht.2 hb] at hr
      subst hr
      refine ⟨?_, ?_, ?_, ?_⟩
      · simp [hnok, hb]
      · intro _; exact ⟨rfl, rfl⟩
      · intro h; exact absurd ⟨hnok, hb⟩ h
      · intro h; exact absurd h.2 hb

/-- Witness of C2: on `board_unresolved` (multiple MPU violations, corner-case
resolver failing, status register holding `0x82`) the unprivileged bus fault ends in
the permission-denied halt, the last action is the write of `0x82`, and at the halt
the status register of the board has been cleared by that write. -/
theorem unprivileged_bus_fault_halt_iff_witness :
    (active_irqn boardEnv board_unresolved = BusFault_IRQn ∧ 0xFFFFFFFD &&& 4 ≠ 0) ∧
    (vmpu_sys_mux_handler boardEnv 0xFFFFFFFD 0x2000 board_unresolved).status =
      .halted .PERMISSION_DENIED ∧
    (vmpu_sys_mux_handler boardEnv 0xFFFFFFFD 0x2000 board_unresolved).trace =
      [Event.recovery_bus 0x20002018 0x20002000 0x40000000 0x82,
       Event.debug_fault .FAULT_BUS 0xFFFFFFFD 0x20002000, Event.write_BFSR 0x82] ∧
    (vmpu_sys_mux_handler boardEnv 0xFFFFFFFD 0x2000 board_unresolved).st =
      { board_unresolved with bfsr := 0 } ∧
    board_unresolved.bfsr = 0x82 ∧
    (vmpu_sys_mux_handler boardEnv 0xFFFFFFFD 0x2000 board_unresolved).st.bfsr = 0 :=
  ⟨⟨by decide, by decide⟩,
   (unprivileged_bus_fault_halt_iff boardEnv 0xFFFFFFFD 0x2000 board_unresolved
      (by decide) (by decide)).1.2 ⟨by decide, by decide⟩,
   ((unprivileged_bus_fault_halt_iff boardEnv 0xFFFFFFFD 0x2000 board_unresolved
      (by decide) (by decide)).2.1 ⟨by decide, by decide⟩).1,
   ((unprivileged_bus_fault_halt_iff boardEnv 0xFFFFFFFD 0x2000 board_unresolved
      (by decide) (by decide)).2.1 ⟨by decide, by decide⟩).2,
   by decide, by decide⟩

/-- C3. For an unprivileged bus fault attributed to MPU slave port `p ≥ 0` on which
the page resolver succeeds for the address `MPU->SP[p].EAR`, the handler returns; after
the resolver's own actions it writes the saved fault status to the bus-fault status
register and then clears the fault bit of slave port `p`, and the corner-case resolver
is never called. -/
theorem mpu_recovery_success_returns {W : Type} (E : Env W) (lr msp : Nat) (w : W)
    (hirq : active_irqn E w = BusFault_IRQn) (hlr : lr &&& 4 ≠ 0)
    (hp : 0 ≤ E.vmpu_fault_get_slave_port w)
    (hm : (vmpu_fault_recovery_mpu E
            (E.vmpu_unpriv_uint32_read (u32 (E.get_PSP w + 6 * 4)) w) (E.get_PSP w)
            (E.MPU_SP_EAR (E.vmpu_fault_get_slave_port w) w) w).ret = 0) :
    let p := E.vmpu_fault_get_slave_port w
    let fs := E.VMPU_SCB_BFSR w
    let m := vmpu_fault_recovery_mpu E
      (E.vmpu_unpriv_uint32_read (u32 (E.get_PSP w + 6 * 4)) w) (E.get_PSP w)
      (E.MPU_SP_EAR p w) w
    let r := vmpu_sys_mux_handler E lr msp w
    r.status = .returned ∧
    r.trace = m.trace ++ [Event.write_BFSR fs, Event.clear_slave_port p] ∧
    r.st = E.vmpu_fault_clear_slave_port p (E.write_VMPU_SCB_BFSR fs m.st) ∧
    (∀ a b c d, Event.recovery_bus a b c d ∉ r.trace) := by
  intro p fs m r
  have hr : r = { status := .returned,
                  st := E.vmpu_fault_clear_slave_port p (E.write_VMPU_SCB_BFSR fs m.st),
                  trace := m.trace ++ [Event.write_BFSR fs, Event.clear_slave_port p] } := by
    show vmpu_sys_mux_handler E lr msp w = _
    rw [handler_unprivileged_bus_fault E lr msp w hirq hlr, if_pos hp, if_pos hm]
  have hc := recovery_mpu_trace_cases E
    (E.vmpu_unpriv_uint32_read (u32 (E.get_PSP w + 6 * 4)) w) (E.get_PSP w)
    (E.MPU_SP_EAR p w) w
  have hc2 : m.trace = [Event.page_lookup (E.MPU_SP_EAR p w)] ∨
      m.trace = [Event.page_lookup (E.MPU_SP_EAR p w),
        Event.register_fault
          (E.page_allocator_get_active_region_for_address (E.MPU_SP_EAR p w) w).2.2.2,
        Event.push_page_acl
          (E.page_allocator_get_active_region_for_address (E.MPU_SP_EAR p w) w).2.1
          (E.page_allocator_get_active_region_for_address (E.MPU_SP_EAR p w) w).2.2.1] := hc
  clear_value r m
  subst hr
  refine ⟨rfl, rfl, rfl, ?_⟩
  intro a b c d
  rcases hc2 with h | h <;> simp [h]

/-- Witness of C3: on `board0` slave port 1 reports an address inside the active box's
page and a region slot is free, so the fault is repaired and the handler returns. -/
theorem mpu_recovery_success_returns_witness :
    (active_irqn boardEnv board0 = BusFault_IRQn ∧ 0xFFFFFFFD &&& 4 ≠ 0 ∧
      0 ≤ boardEnv.vmpu_fault_get_slave_port board0) ∧
    (vmpu_sys_mux_handler boardEnv 0xFFFFFFFD 0x2000 board0).status = .returned ∧
    (vmpu_sys_mux_handler boardEnv 0xFFFFFFFD 0x2000 board0).trace =
      [Event.page_lookup 0x20010010, Event.register_fault 3,
       Event.push_page_acl 0x20010000 0x20012000,
       Event.write_BFSR 0x82, Event.clear_slave_port 1] :=
  ⟨⟨by decide, by decide, by decide⟩,
   (mpu_recovery_success_returns boardEnv 0xFFFFFFFD 0x2000 board0
      (by decide) (by decide) (by decide) (by decide)).1,
   (mpu_recovery_success_returns boardEnv 0xFFFFFFFD 0x2000 board0
      (by decide) (by decide) (by decide) (by decide)).2.1⟩

/-- The handler for an interrupt other than the bus fault never ends in the
permission-denied halt, and when it ends in the `NOT_IMPLEMENTED` or `NOT_ALLOWED`
halt it has performed no action and left the external world unchanged. -/
theorem handler_other_irq {W : Type} (E : Env W) (lr msp : Nat) (w : W)
    (hirq : active_irqn E w ≠ BusFault_IRQn) :
    (vmpu_sys_mux_handler E lr msp w).status ≠ .halted .PERMISSION_DENIED ∧
    ((vmpu_sys_mux_handler E lr msp w).status = .halted .NOT_IMPLEMENTED ∨
     (vmpu_sys_mux_handler E lr msp w).status = .halted .NOT_ALLOWED →
      (vmpu_sys_mux_handler E lr msp w).trace = [] ∧
      (vmpu_sys_mux_handler E lr msp w).st = w) := by
  unfold vmpu_sys_mux_handler
  simp only [hirq, if_false]
  split
  · simp
  · split
    · simp
    · split
      · simp
      · split
        · simp
        · split
          · simp
          · split <;> simp

/-- C4, as stated, fails, at two inputs. With the PendSV exception active the handler
halts (`NOT_IMPLEMENTED`) without having performed any action. With a bus fault taken
from privileged code (`lr = 0xFFFFFFF1`) while the bus-fault status register holds
`0x82`, the handler halts (`FAULT_BUS`) after the fault report alone: no status write
occurs and the register still holds `0x82` at the halt. -/
theorem halt_without_status_write :
    ((vmpu_sys_mux_handler boardEnv 0xFFFFFFFD 0x2000 board_pendsv).status.isHalt = true ∧
     (vmpu_sys_mux_handler boardEnv 0xFFFFFFFD 0x2000 board_pendsv).trace = [] ∧
     (vmpu_sys_mux_handler boardEnv 0xFFFFFFFD 0x2000 board_pendsv).st.bfsr =
       board_pendsv.bfsr) ∧
    ((vmpu_sys_mux_handler boardEnv 0xFFFFFFF1 0x2000 board0).status =
       .halted .FAULT_BUS ∧
     (vmpu_sys_mux_handler boardEnv 0xFFFFFFF1 0x2000 board0).trace =
       [Event.debug_fault .FAULT_BUS 0xFFFFFFF1 0x2000] ∧
     (∀ v, Event.write_BFSR v ∉
       (vmpu_sys_mux_handler boardEnv 0xFFFFFFF1 0x2000 board0).trace) ∧
     board0.bfsr = 0x82 ∧
     (vmpu_sys_mux_handler boardEnv 0xFFFFFFF1 0x2000 board0).st.bfsr = 0x82) := by
  refine ⟨⟨by decide, by decide, by decide⟩, by decide, by decide, ?_, by decide, by decide⟩
  intro v
  have h : (vmpu_sys_mux_handler boardEnv 0xFFFFFFF1 0x2000 board0).trace =
      [Event.debug_fault .FAULT_BUS 0xFFFFFFF1 0x2000] := by decide
  rw [h]
  simp

/-- C4, amended. Every run of the handler that ends in the permission-denied halt
(an unprivileged bus fault that no resolver repaired) has, after the call of the
corner-case resolver and the fault report, written the saved fault status back to the
bus-fault status register as its last action before the halt, and the world at the
halt is the world left by the resolver with that write applied. A run that ends in
the `NOT_IMPLEMENTED` or `NOT_ALLOWED` halt (PendSV, SysTick, not a system interrupt)
has performed no action at all and left the external world unchanged. -/
theorem permission_denied_halt_quiesces {W : Type} (E : Env W) (lr msp : Nat) (w : W) :
    let psp := E.get_PSP w
    let pc := E.vmpu_unpriv_uint32_read (u32 (psp + 6 * 4)) w
    let fs := E.VMPU_SCB_BFSR w
    let p := E.vmpu_fault_get_slave_port w
    let m := vmpu_fault_recovery_mpu E pc psp (E.MPU_SP_EAR p w) w
    let addr : Nat := if 0 ≤ p then E.MPU_SP_EAR p w else E.SCB_BFAR w
    let wb : W := if 0 ≤ p then m.st else w
    let pre : List Event := if 0 ≤ p then m.trace else []
    let bus := E.vmpu_fault_recovery_bus pc psp addr fs wb
    let r := vmpu_sys_mux_handler E lr msp w
    (r.status = .halted .PERMISSION_DENIED →
      r.trace = pre ++ [Event.recovery_bus pc psp addr fs,
                        Event.debug_fault .FAULT_BUS lr psp, Event.write_BFSR fs] ∧
      r.st = E.write_VMPU_SCB_BFSR fs bus.2) ∧
    (r.status = .halted .NOT_IMPLEMENTED ∨ r.status = .halted .NOT_ALLOWED →
      r.trace = [] ∧ r.st = w) := by
  intro psp pc fs p m addr wb pre bus r
  by_cases hirq : active_irqn E w = BusFault_IRQn
  · by_cases hlr : lr &&& 4 = 0
    · have h : r = { status := .halted .FAULT_BUS, st := w,
                     trace := [Event.debug_fault .FAULT_BUS lr msp] } :=
        privileged_bus_fault_halts_aux E lr msp w hirq hlr
      clear_value r
      subst h
      simp
    · have hr0 := handler_unprivileged_bus_fault E lr msp w hirq hlr
      have hr : r = if 0 ≤ p then
            (if m.ret = 0 then
              { status := .returned,
                st := E.vmpu_fault_clear_slave_port p (E.write_VMPU_SCB_BFSR fs m.st),
                trace := m.trace ++ [Event.write_BFSR fs, Event.clear_slave_port p] }
            else bus_fault_tail E lr psp pc (E.MPU_SP_EAR p w) fs m.st m.trace)
          else bus_fault_tail E lr psp pc (E.SCB_BFAR w) fs w [] := hr0
      have haddr : addr = if 0 ≤ p then E.MPU_SP_EAR p w else E.SCB_BFAR w := rfl
      have hwb : wb = if 0 ≤ p then m.st else w := rfl
      have hpre : pre = if 0 ≤ p then m.trace else [] := rfl
      have hbus : bus = E.vmpu_fault_recovery_bus pc psp addr fs wb := rfl
      clear_value r bus pre wb addr m
      clear hr0
      by_cases hp : 0 ≤ p
      · rw [if_pos hp] at hr haddr hwb hpre
        subst haddr hwb hpre
        by_cases hm : m.ret = 0
        · rw [if_pos hm] at hr
          subst hr
          simp
        · rw [if_neg hm] at hr
          have ht := bus_fault_tail_run E lr psp pc (E.MPU_SP_EAR p w) fs m.st m.trace
          rw [← hbus] at ht
          by_cases hb : bus.1 = 0
          · rw [ht.1 hb] at hr
            subst hr
            simp
          · rw [ht.2 hb] at hr
            subst hr
            exact ⟨fun _ => ⟨rfl, rfl⟩, by simp⟩
      · rw [if_neg hp] at hr haddr hwb hpre
        subst haddr hpre
        rw [hwb] at hbus
        clear hwb
        have ht := bus_fault_tail_run E lr psp pc (E.SCB_BFAR w) fs w []
        rw [← hbus] at ht
        by_cases hb : bus.1 = 0
        · rw [ht.1 hb] at hr
          subst hr
          simp
        · rw [ht.2 hb] at hr
          subst hr
          exact ⟨fun _ => ⟨rfl, rfl⟩, by simp⟩
  · have h := handler_other_irq E lr msp w hirq
    have hr : r = vmpu_sys_mux_handler E lr msp w := rfl
    clear_value r
    subst hr
    exact ⟨fun hs => absurd hs h.1, h.2⟩

/-- Witness of C4 (amended): the permission-denied halt on `board_unresolved` comes
right after the write of the saved status `0x82`, which has cleared the status
register of the board; the PendSV halt on `board_pendsv` comes with an empty trace. -/
theorem permission_denied_halt_quiesces_witness :
    ((vmpu_sys_mux_handler boardEnv 0xFFFFFFFD 0x2000 board_unresolved).trace =
      [Event.recovery_bus 0x20002018 0x20002000 0x40000000 0x82,
       Event.debug_fault .FAULT_BUS 0xFFFFFFFD 0x20002000, Event.write_BFSR 0x82] ∧
     (vmpu_sys_mux_handler boardEnv 0xFFFFFFFD 0x2000 board_unresolved).st =
      { board_unresolved with bfsr := 0 }) ∧
    ((vmpu_sys_mux_handler boardEnv 0xFFFFFFFD 0x2000 board_pendsv).trace = [] ∧
     (vmpu_sys_mux_handler boardEnv 0xFFFFFFFD 0x2000 board_pendsv).st = board_pendsv) ∧
    (vmpu_sys_mux_handler boardEnv 0xFFFFFFFD 0x2000 board_unresolved).st.bfsr = 0 :=
  ⟨(permission_denied_halt_quiesces boardEnv 0xFFFFFFFD 0x2000 board_unresolved).1
      (by decide),
   (permission_denied_halt_quiesces boardEnv 0xFFFFFFFD 0x2000 board_pendsv).2
      (Or.inl (by decide)),
   by decide⟩

/-- For the memory-management, usage, hard and debug-monitor faults the handler
reports the fault with the stack pointer selected by `lr & 0x4` and then leaves the
`switch` and returns to its caller: no `HALT_ERROR` follows the report. -/
theorem fatal_class_fault_reports_and_returns {W : Type} (E : Env W) (lr msp : Nat) (w : W)
    (reason : THaltError)
    (hirq : (active_irqn E w = MemoryManagement_IRQn ∧ reason = .FAULT_MEMMANAGE) ∨
            (active_irqn E w = UsageFault_IRQn ∧ reason = .FAULT_USAGE) ∨
            (active_irqn E w = HardFault_IRQn ∧ reason = .FAULT_HARD) ∨
            (active_irqn E w = DebugMonitor_IRQn ∧ reason = .FAULT_DEBUG)) :
    vmpu_sys_mux_handler E lr msp w =
      { status := .returned, st := w,
        trace := [Event.debug_fault reason lr (fault_sp lr (E.get_PSP w) msp)] } := by
  have d1 : UsageFault_IRQn ≠ MemoryManagement_IRQn := by decide
  have d2 : UsageFault_IRQn ≠ BusFault_IRQn := by decide
  have d3 : HardFault_IRQn ≠ MemoryManagement_IRQn := by decide
  have d4 : HardFault_IRQn ≠ BusFault_IRQn := by decide
  have d5 : HardFault_IRQn ≠ UsageFault_IRQn := by decide
  have d6 : DebugMonitor_IRQn ≠ MemoryManagement_IRQn := by decide
  have d7 : DebugMonitor_IRQn ≠ BusFault_IRQn := by decide
  have d8 : DebugMonitor_IRQn ≠ UsageFault_IRQn := by decide
  have d9 : DebugMonitor_IRQn ≠ HardFault_IRQn := by decide
  rcases hirq with ⟨h, rfl⟩ | ⟨h, rfl⟩ | ⟨h, rfl⟩ | ⟨h, rfl⟩ <;>
    simp [vmpu_sys_mux_handler, h, d1, d2, d3, d4, d5, d6, d7, d8, d9]

/-- C5 fails on the code: with the memory-management fault active (IPSR 4) the handler
reports the fault with the process stack pointer and then returns to its caller
instead of halting. -/
theorem memmanage_fault_returns :
    active_irqn boardEnv board_memmanage = MemoryManagement_IRQn ∧
    (vmpu_sys_mux_handler boardEnv 0xFFFFFFFD 0x2000 board_memmanage).status = .returned ∧
    (vmpu_sys_mux_handler boardEnv 0xFFFFFFFD 0x2000 board_memmanage).trace =
      [Event.debug_fault .FAULT_MEMMANAGE 0xFFFFFFFD 0x20002000] ∧
    (vmpu_sys_mux_handler boardEnv 0xFFFFFFFD 0x2000 board_memmanage).status.isHalt = false := by
  refine ⟨by decide, by decide, by decide, by decide⟩

/-! ## Box memory layout manager: theorems -/

/-- A sum below `2^32` is its own `uint32_t` value. -/
theorem u32_of_lt {x : Nat} (h : x < 4294967296) : u32 x = x :=
  Nat.mod_eq_of_lt h

/-- The arena cursor at the point of use is never below the stored cursor. -/
theorem le_cursor_at_use (cfg : Config) (pos : Nat) : pos ≤ cursor_at_use cfg pos := by
  unfold cursor_at_use
  split
  · omega
  · exact Nat.le_refl _

/-- The run of `vmpu_acl_stack` for a non-zero box with a non-zero data size
(lines 180-231), with the two guards resolved. -/
theorem acl_stack_run_eq {W : Type} (cfg : Config) (E : Env W)
    (box_id bss_size stack_size : Nat) (m : Machine W)
    (hbox : box_id ≠ 0) (hbss : bss_size ≠ 0) :
    vmpu_acl_stack cfg E box_id bss_size stack_size m =
      { status := .returned,
        st := { m with
          acl_stack_g_box_mem_pos :=
            u32 (u32 (u32 (cursor_at_use cfg m.acl_stack_g_box_mem_pos +
                UVISOR_REGION_ROUND_UP cfg (UVISOR_MIN_STACK cfg stack_size)) +
              cfg.UVISOR_STACK_BAND_SIZE) +
              u32 (UVISOR_REGION_ROUND_UP cfg bss_size + cfg.UVISOR_STACK_BAND_SIZE)),
          g_context_current_states :=
            set_context
              (set_context m.g_context_current_states box_id
                { m.g_context_current_states box_id with
                  sp := u32 (cursor_at_use cfg m.acl_stack_g_box_mem_pos +
                    UVISOR_REGION_ROUND_UP cfg (UVISOR_MIN_STACK cfg stack_size)) })
              box_id
              { (set_context m.g_context_current_states box_id
                  { m.g_context_current_states box_id with
                    sp := u32 (cursor_at_use cfg m.acl_stack_g_box_mem_pos +
                      UVISOR_REGION_ROUND_UP cfg (UVISOR_MIN_STACK cfg stack_size)) }) box_id with
                bss := u32 (u32 (cursor_at_use cfg m.acl_stack_g_box_mem_pos +
                    UVISOR_REGION_ROUND_UP cfg (UVISOR_MIN_STACK cfg stack_size)) +
                  cfg.UVISOR_STACK_BAND_SIZE) },
          mem := memset_zero m.mem
            (u32 (u32 (cursor_at_use cfg m.acl_stack_g_box_mem_pos +
                UVISOR_REGION_ROUND_UP cfg (UVISOR_MIN_STACK cfg stack_size)) +
              cfg.UVISOR_STACK_BAND_SIZE))
            (UVISOR_REGION_ROUND_UP cfg bss_size),
          world := E.vmpu_region_add_static_acl box_id
            (u32 (u32 (cursor_at_use cfg m.acl_stack_g_box_mem_pos +
                UVISOR_REGION_ROUND_UP cfg (UVISOR_MIN_STACK cfg stack_size)) +
              cfg.UVISOR_STACK_BAND_SIZE))
            (UVISOR_REGION_ROUND_UP cfg bss_size) cfg.UVISOR_TACLDEF_DATA
            (E.vmpu_region_add_static_acl box_id
              (cursor_at_use cfg m.acl_stack_g_box_mem_pos)
              (UVISOR_REGION_ROUND_UP cfg (UVISOR_MIN_STACK cfg stack_size))
              cfg.UVISOR_TACLDEF_STACK m.world) },
        trace :=
          [Event.add_static_acl box_id (cursor_at_use cfg m.acl_stack_g_box_mem_pos)
             (UVISOR_REGION_ROUND_UP cfg (UVISOR_MIN_STACK cfg stack_size))
             cfg.UVISOR_TACLDEF_STACK,
           Event.memset_zero
             (u32 (u32 (cursor_at_use cfg m.acl_stack_g_box_mem_pos +
                UVISOR_REGION_ROUND_UP cfg (UVISOR_MIN_STACK cfg stack_size)) +
              cfg.UVISOR_STACK_BAND_SIZE))
             (UVISOR_REGION_ROUND_UP cfg bss_size),
           Event.add_static_acl box_id
             (u32 (u32 (cursor_at_use cfg m.acl_stack_g_box_mem_pos +
                UVISOR_REGION_ROUND_UP cfg (UVISOR_MIN_STACK cfg stack_size)) +
              cfg.UVISOR_STACK_BAND_SIZE))
             (UVISOR_REGION_ROUND_UP cfg bss_size) cfg.UVISOR_TACLDEF_DATA] } := by
  unfold vmpu_acl_stack
  simp only [hbox, hbss, if_false]

/-- The run of `vmpu_acl_stack` for a non-zero box with `bss_size = 0`: the `assert` of
line 206 fails after the stack ACL has been registered, the saved stack pointer set
and the cursor advanced past the stack and its guard band. -/
theorem acl_stack_run_bss_zero {W : Type} (cfg : Config) (E : Env W)
    (box_id stack_size : Nat) (m : Machine W) (hbox : box_id ≠ 0) :
    vmpu_acl_stack cfg E box_id 0 stack_size m =
      { status := .assert_failed,
        st := { m with
          acl_stack_g_box_mem_pos :=
            u32 (u32 (cursor_at_use cfg m.acl_stack_g_box_mem_pos +
                UVISOR_REGION_ROUND_UP cfg (UVISOR_MIN_STACK cfg stack_size)) +
              cfg.UVISOR_STACK_BAND_SIZE),
          g_context_current_states :=
            set_context m.g_context_current_states box_id
              { m.g_context_current_states box_id with
                sp := u32 (cursor_at_use cfg m.acl_stack_g_box_mem_pos +
                  UVISOR_REGION_ROUND_UP cfg (UVISOR_MIN_STACK cfg stack_size)) },
          world := E.vmpu_region_add_static_acl box_id
            (cursor_at_use cfg m.acl_stack_g_box_mem_pos)
            (UVISOR_REGION_ROUND_UP cfg (UVISOR_MIN_STACK cfg stack_size))
            cfg.UVISOR_TACLDEF_STACK m.world },
        trace :=
          [Event.add_static_acl box_id (cursor_at_use cfg m.acl_stack_g_box_mem_pos)
             (UVISOR_REGION_ROUND_UP cfg (UVISOR_MIN_STACK cfg stack_size))
             cfg.UVISOR_TACLDEF_STACK] } := by
  unfold vmpu_acl_stack
  simp only [hbox, if_false, if_true]

/-- The run of `vmpu_acl_stack` for a non-zero box with a non-zero data size when the
cursor advances do not wrap: every `uint32_t` sum is the plain sum. -/
theorem acl_stack_run_fits {W : Type} (cfg : Config) (E : Env W)
    (box_id bss_size stack_size : Nat) (m : Machine W)
    (hbox : box_id ≠ 0) (hbss : bss_size ≠ 0)
    (hfit : cursor_fits cfg m.acl_stack_g_box_mem_pos bss_size stack_size) :
    let c := cursor_at_use cfg m.acl_stack_g_box_mem_pos
    let S := UVISOR_REGION_ROUND_UP cfg (UVISOR_MIN_STACK cfg stack_size)
    let D := UVISOR_REGION_ROUND_UP cfg bss_size
    let B := cfg.UVISOR_STACK_BAND_SIZE
    vmpu_acl_stack cfg E box_id bss_size stack_size m =
      { status := .returned,
        st := { m with
          acl_stack_g_box_mem_pos := c + S + B + D + B,
          g_context_current_states :=
            set_context
              (set_context m.g_context_current_states box_id
                { m.g_context_current_states box_id with sp := c + S })
              box_id
              { (set_context m.g_context_current_states box_id
                  { m.g_context_current_states box_id with sp := c + S }) box_id with
                bss := c + S + B },
          mem := memset_zero m.mem (c + S + B) D,
          world := E.vmpu_region_add_static_acl box_id (c + S + B) D
            cfg.UVISOR_TACLDEF_DATA
            (E.vmpu_region_add_static_acl box_id c S cfg.UVISOR_TACLDEF_STACK m.world) },
        trace :=
          [Event.add_static_acl box_id c S cfg.UVISOR_TACLDEF_STACK,
           Event.memset_zero (c + S + B) D,
           Event.add_static_acl box_id (c + S + B) D cfg.UVISOR_TACLDEF_DATA] } := by
  intro c S D B
  have hfit2 : c + S + B + D + B < 4294967296 := hfit
  have e1 : u32 (c + S) = c + S := u32_of_lt (by omega)
  have e2 : u32 (c + S + B) = c + S + B := u32_of_lt (by omega)
  have e3 : u32 (D + B) = D + B := u32_of_lt (by omega)
  have e4 : u32 (c + S + B + (D + B)) = c + S + B + D + B := by
    rw [u32_of_lt (by omega)]; omega
  have hr := acl_stack_run_eq cfg E box_id bss_size stack_size m hbox hbss
  have hr2 : vmpu_acl_stack cfg E box_id bss_size stack_size m =
      { status := .returned,
        st := { m with
          acl_stack_g_box_mem_pos := u32 (u32 (u32 (c + S) + B) + u32 (D + B)),
          g_context_current_states :=
            set_context
              (set_context m.g_context_current_states box_id
                { m.g_context_current_states box_id with sp := u32 (c + S) })
              box_id
              { (set_context m.g_context_current_states box_id
                  { m.g_context_current_states box_id with sp := u32 (c + S) }) box_id with
                bss := u32 (u32 (c + S) + B) },
          mem := memset_zero m.mem (u32 (u32 (c + S) + B)) D,
          world := E.vmpu_region_add_static_acl box_id (u32 (u32 (c + S) + B)) D
            cfg.UVISOR_TACLDEF_DATA
            (E.vmpu_region_add_static_acl box_id c S cfg.UVISOR_TACLDEF_STACK m.world) },
        trace :=
          [Event.add_static_acl box_id c S cfg.UVISOR_TACLDEF_STACK,
           Event.memset_zero (u32 (u32 (c + S) + B)) D,
           Event.add_static_acl box_id (u32 (u32 (c + S) + B)) D
             cfg.UVISOR_TACLDEF_DATA] } := hr
  clear hr
  clear_value c S D B
  simp only [e1, e2, e3, e4] at hr2
  exact hr2

/-- C6. For a non-zero box and a non-zero data size, when the cursor advances do not
wrap, `vmpu_acl_stack` returns having performed exactly: the registration of the stack
ACL `(c, S)` with the default stack permissions, the zero-fill, and the registration
of the data ACL `(c + S + BAND, D)` with the default data permissions; the box's saved
stack pointer is `c + S`, its bss base `c + S + BAND`, and the cursor is left at
`c + S + BAND + D + BAND`. On the first use (stored cursor zero) `c` is
`ROUND_UP(bss_boxes_start) + BAND`. -/
theorem acl_stack_layout {W : Type} (cfg : Config) (E : Env W)
    (box_id bss_size stack_size : Nat) (m : Machine W)
    (hbox : box_id ≠ 0) (hbss : bss_size ≠ 0)
    (hfit : cursor_fits cfg m.acl_stack_g_box_mem_pos bss_size stack_size) :
    let c := cursor_at_use cfg m.acl_stack_g_box_mem_pos
    let S := UVISOR_REGION_ROUND_UP cfg (UVISOR_MIN_STACK cfg stack_size)
    let D := UVISOR_REGION_ROUND_UP cfg bss_size
    let B := cfg.UVISOR_STACK_BAND_SIZE
    let r := vmpu_acl_stack cfg E box_id bss_size stack_size m
    r.status = .returned ∧
    r.trace = [Event.add_static_acl box_id c S cfg.UVISOR_TACLDEF_STACK,
               Event.memset_zero (c + S + B) D,
               Event.add_static_acl box_id (c + S + B) D cfg.UVISOR_TACLDEF_DATA] ∧
    static_regions r.trace =
      [{ box_id := box_id, start := c, size := S },
       { box_id := box_id, start := c + S + B, size := D }] ∧
    (r.st.g_context_current_states box_id).sp = c + S ∧
    (r.st.g_context_current_states box_id).bss = c + S + B ∧
    r.st.acl_stack_g_box_mem_pos = c + S + B + D + B ∧
    (m.acl_stack_g_box_mem_pos = 0 →
      UVISOR_REGION_ROUND_UP cfg cfg.bss_boxes_start + B < 4294967296 →
      c = UVISOR_REGION_ROUND_UP cfg cfg.bss_boxes_start + B) := by
  intro c S D B r
  have hr : r =
      { status := .returned,
        st := { m with
          acl_stack_g_box_mem_pos := c + S + B + D + B,
          g_context_current_states :=
            set_context
              (set_context m.g_context_current_states box_id
                { m.g_context_current_states box_id with sp := c + S })
              box_id
              { (set_context m.g_context_current_states box_id
                  { m.g_context_current_states box_id with sp := c + S }) box_id with
                bss := c + S + B },
          mem := memset_zero m.mem (c + S + B) D,
          world := E.vmpu_region_add_static_acl box_id (c + S + B) D
            cfg.UVISOR_TACLDEF_DATA
            (E.vmpu_region_add_static_acl box_id c S cfg.UVISOR_TACLDEF_STACK m.world) },
        trace :=
          [Event.add_static_acl box_id c S cfg.UVISOR_TACLDEF_STACK,
           Event.memset_zero (c + S + B) D,
           Event.add_static_acl box_id (c + S + B) D cfg.UVISOR_TACLDEF_DATA] } :=
    acl_stack_run_fits cfg E box_id bss_size stack_size m hbox hbss hfit
  have hc : c = cursor_at_use cfg m.acl_stack_g_box_mem_pos := rfl
  have hB : B = cfg.UVISOR_STACK_BAND_SIZE := rfl
  clear_value r c S D B
  subst hr
  refine ⟨rfl, rfl, rfl, ?_, ?_, rfl, ?_⟩
  · simp [set_context]
  · simp [set_context]
  · intro h0 hlt
    rw [hc, h0]
    simp only [cursor_at_use, if_true]
    rw [← hB]
    exact u32_of_lt hlt

/-- Witness of C6, the layout scenario of the specification: box 1 with `data = 256`,
`stack = 512` on the platform with minimum stack 4096, guard band 1024 and 32-byte
granularity gets a stack region of 4096 bytes, a data region of 256 bytes, and the
cursor advances by `4096 + 1024 + 256 + 1024`. -/
theorem acl_stack_layout_witness :
    ((1 : Nat) ≠ 0 ∧ (256 : Nat) ≠ 0 ∧
      cursor_fits cfg0 machine0.acl_stack_g_box_mem_pos 256 512) ∧
    static_regions (vmpu_acl_stack cfg0 boardEnv 1 256 512 machine0).trace =
      [{ box_id := 1, start := 0x20000400, size := 4096 },
       { box_id := 1, start := 0x20000400 + 4096 + 1024, size := 256 }] ∧
    (vmpu_acl_stack cfg0 boardEnv 1 256 512 machine0).st.acl_stack_g_box_mem_pos =
      0x20000400 + 4096 + 1024 + 256 + 1024 :=
  ⟨⟨by decide, by decide, by decide⟩,
   (acl_stack_layout cfg0 boardEnv 1 256 512 machine0
      (by decide) (by decide) (by decide)).2.2.1,
   (acl_stack_layout cfg0 boardEnv 1 256 512 machine0
      (by decide) (by decide) (by decide)).2.2.2.2.2.1⟩

/-- The round-up of a non-zero size is positive when the granularity is non-zero and
the addition inside the round-up does not wrap. -/
theorem round_up_pos (cfg : Config) (x : Nat) (hx : x ≠ 0)
    (hG : cfg.UVISOR_REGION_SIZE ≠ 0)
    (hround : x + (cfg.UVISOR_REGION_SIZE - 1) < 4294967296) :
    0 < UVISOR_REGION_ROUND_UP cfg x := by
  unfold UVISOR_REGION_ROUND_UP
  rw [u32_of_lt hround]
  have hq : 0 < (x + (cfg.UVISOR_REGION_SIZE - 1)) / cfg.UVISOR_REGION_SIZE :=
    Nat.div_pos (by omega) (by omega)
  exact Nat.mul_pos hq (by omega)

/-- C8, as stated, fails: after box 1 of the layout scenario the cursor is
`0x20001D00`; laying out box 2 with `bss_size = 0xFFFFE800` and `stack_size = 512`
returns with the cursor again at `0x20001D00`, because
`4096 + 1024 + 0xFFFFE800 + 1024 = 2^32`. The cursor has not grown. -/
theorem arena_cursor_wraps :
    (vmpu_acl_stack cfg0 boardEnv 2 0xFFFFE800 512 machine1).status = .returned ∧
    machine1.acl_stack_g_box_mem_pos = 0x20001D00 ∧
    (vmpu_acl_stack cfg0 boardEnv 2 0xFFFFE800 512 machine1).st.acl_stack_g_box_mem_pos =
      0x20001D00 ∧
    ¬ (machine1.acl_stack_g_box_mem_pos <
        (vmpu_acl_stack cfg0 boardEnv 2 0xFFFFE800 512 machine1).st.acl_stack_g_box_mem_pos) := by
  refine ⟨by decide, by decide, by decide, by decide⟩

/-- C8, amended. For a non-zero box and a non-zero data size, when the granularity is
non-zero, the round-up of the data size does not wrap and the cursor advances do not
wrap, the cursor after the call is strictly greater than the cursor before it (both
the stored one and the one at the point of use), and the stack region and the data
region registered by the call lie within `[cursor at use, cursor after)`. -/
theorem arena_growth {W : Type} (cfg : Config) (E : Env W)
    (box_id bss_size stack_size : Nat) (m : Machine W)
    (hbox : box_id ≠ 0) (hbss : bss_size ≠ 0)
    (hG : cfg.UVISOR_REGION_SIZE ≠ 0)
    (hround : bss_size + (cfg.UVISOR_REGION_SIZE - 1) < 4294967296)
    (hfit : cursor_fits cfg m.acl_stack_g_box_mem_pos bss_size stack_size) :
    let c := cursor_at_use cfg m.acl_stack_g_box_mem_pos
    let r := vmpu_acl_stack cfg E box_id bss_size stack_size m
    m.acl_stack_g_box_mem_pos ≤ c ∧
    c < r.st.acl_stack_g_box_mem_pos ∧
    m.acl_stack_g_box_mem_pos < r.st.acl_stack_g_box_mem_pos ∧
    (∀ reg ∈ static_regions r.trace,
      c ≤ reg.start ∧ reg.start + reg.size ≤ r.st.acl_stack_g_box_mem_pos) := by
  intro c r
  have hrun := acl_stack_run_fits cfg E box_id bss_size stack_size m hbox hbss hfit
  have hD := round_up_pos cfg bss_size hbss hG hround
  have hle := le_cursor_at_use cfg m.acl_stack_g_box_mem_pos
  have hregs : static_regions r.trace =
      [{ box_id := box_id, start := c,
         size := UVISOR_REGION_ROUND_UP cfg (UVISOR_MIN_STACK cfg stack_size) },
       { box_id := box_id,
         start := c + UVISOR_REGION_ROUND_UP cfg (UVISOR_MIN_STACK cfg stack_size) +
           cfg.UVISOR_STACK_BAND_SIZE,
         size := UVISOR_REGION_ROUND_UP cfg bss_size }] := by
    show static_regions (vmpu_acl_stack cfg E box_id bss_size stack_size m).trace = _
    rw [hrun]
    rfl
  have hpos : r.st.acl_stack_g_box_mem_pos =
      c + UVISOR_REGION_ROUND_UP cfg (UVISOR_MIN_STACK cfg stack_size) +
        cfg.UVISOR_STACK_BAND_SIZE + UVISOR_REGION_ROUND_UP cfg bss_size +
        cfg.UVISOR_STACK_BAND_SIZE := by
    show (vmpu_acl_stack cfg E box_id bss_size stack_size m).st.acl_stack_g_box_mem_pos = _
    rw [hrun]
  have hc : c = cursor_at_use cfg m.acl_stack_g_box_mem_pos := rfl
  clear hrun
  clear_value r c
  rw [← hc] at hle
  refine ⟨hle, by omega, by omega, ?_⟩
  intro reg hreg
  rw [hregs] at hreg
  simp only [List.mem_cons, List.mem_singleton, List.not_mem_nil, or_false] at hreg
  rcases hreg with rfl | rfl
  · simp only; omega
  · simp only; omega

/-- Witness of C8 (amended): the layout scenario, box 1 laid out from `machine0`. -/
theorem arena_growth_witness :
    ((1 : Nat) ≠ 0 ∧ (256 : Nat) ≠ 0 ∧ cfg0.UVISOR_REGION_SIZE ≠ 0 ∧
      256 + (cfg0.UVISOR_REGION_SIZE - 1) < 4294967296 ∧
      cursor_fits cfg0 machine0.acl_stack_g_box_mem_pos 256 512) ∧
    machine0.acl_stack_g_box_mem_pos <
      (vmpu_acl_stack cfg0 boardEnv 1 256 512 machine0).st.acl_stack_g_box_mem_pos :=
  ⟨⟨by decide, by decide, by decide, by decide, by decide⟩,
   (arena_growth cfg0 boardEnv 1 256 512 machine0
      (by decide) (by decide) (by decide) (by decide) (by decide)).2.2.1⟩

/-- C9. For a non-zero box and a non-zero data size `vmpu_acl_stack` returns, and at
the return every byte of the data region `[bss, bss + ROUND_UP(bss_size))` reads zero,
every byte outside that region holds what it held at entry, and in the trace the
zero-fill of the region comes before the registration of its data ACL. -/
theorem acl_stack_zero_fill {W : Type} (cfg : Config) (E : Env W)
    (box_id bss_size stack_size : Nat) (m : Machine W)
    (hbox : box_id ≠ 0) (hbss : bss_size ≠ 0) :
    let r := vmpu_acl_stack cfg E box_id bss_size stack_size m
    let base := (r.st.g_context_current_states box_id).bss
    let D := UVISOR_REGION_ROUND_UP cfg bss_size
    r.status = .returned ∧
    (∀ a, base ≤ a → a < base + D → r.st.mem a = 0) ∧
    (∀ a, ¬ (base ≤ a ∧ a < base + D) → r.st.mem a = m.mem a) ∧
    (∃ e, r.trace = [e, Event.memset_zero base D,
                        Event.add_static_acl box_id base D cfg.UVISOR_TACLDEF_DATA]) := by
  intro r base D
  have hr : r = vmpu_acl_stack cfg E box_id bss_size stack_size m := rfl
  have hbase : base = (r.st.g_context_current_states box_id).bss := rfl
  have hD : D = UVISOR_REGION_ROUND_UP cfg bss_size := rfl
  rw [acl_stack_run_eq cfg E box_id bss_size stack_size m hbox hbss] at hr
  clear_value base r D
  subst hr
  simp only [set_context, if_true] at hbase
  subst hbase
  subst hD
  refine ⟨rfl, ?_, ?_, ⟨_, rfl⟩⟩
  · intro a h1 h2
    simp only [memset_zero]
    rw [if_pos ⟨h1, h2⟩]
  · intro a h
    simp only [memset_zero]
    rw [if_neg h]

/-- Witness of C9: in the layout scenario memory holds `0xFF` everywhere at entry; at
the return the first byte of box 1's data region reads zero and the byte just below
the region still reads `0xFF`. -/
theorem acl_stack_zero_fill_witness :
    ((1 : Nat) ≠ 0 ∧ (256 : Nat) ≠ 0) ∧
    (vmpu_acl_stack cfg0 boardEnv 1 256 512 machine0).st.mem 0x20001800 = 0 ∧
    (vmpu_acl_stack cfg0 boardEnv 1 256 512 machine0).st.mem 0x200017FF = 0xFF :=
  ⟨⟨by decide, by decide⟩,
   (acl_stack_zero_fill cfg0 boardEnv 1 256 512 machine0 (by decide) (by decide)).2.1
      0x20001800 (by decide) (by decide),
   (acl_stack_zero_fill cfg0 boardEnv 1 256 512 machine0 (by decide) (by decide)).2.2.1
      0x200017FF (by decide)⟩

/-- C10, as stated, fails: `vmpu_acl_stack(1, 0, 512)` on the bring-up machine stops
at the `assert(bss_size != 0)` of line 206, and by then the stack ACL of box 1 has been
registered, box 1's saved stack pointer has been set and the cursor has moved from `0`
to `0x20001800`: the state at the halt is not the state at entry. -/
theorem bss_zero_halts_after_mutation :
    (vmpu_acl_stack cfg0 boardEnv 1 0 512 machine0).status = .assert_failed ∧
    (vmpu_acl_stack cfg0 boardEnv 1 0 512 machine0).trace =
      [Event.add_static_acl 1 0x20000400 4096 0x1B] ∧
    machine0.acl_stack_g_box_mem_pos = 0 ∧
    (vmpu_acl_stack cfg0 boardEnv 1 0 512 machine0).st.acl_stack_g_box_mem_pos =
      0x20001800 ∧
    (machine0.g_context_current_states 1).sp = 0 ∧
    ((vmpu_acl_stack cfg0 boardEnv 1 0 512 machine0).st.g_context_current_states 1).sp =
      0x20001400 ∧
    (vmpu_acl_stack cfg0 boardEnv 1 0 512 machine0).st.world.static_acls ≠
      machine0.world.static_acls := by
  refine ⟨by decide, by decide, by decide, by decide, by decide, by decide, by decide⟩

/-- C10, amended. Three configuration errors are detected before any state change:
`vmpu_acl_stack` for box 0 with a non-zero stack size, `vmpu_switch` with an invalid
source or destination box, and `vmpu_load_box` for a non-zero box each stop with the
machine exactly as at entry and an empty trace. The fourth, `vmpu_acl_stack` for a
non-zero box with `bss_size = 0`, stops at the `assert` of line 206: the stack ACL has
been registered, the saved stack pointer set and the cursor advanced past the stack
and its guard band, while the bss base, the memory and the file-scope cursor are as at
entry and no data ACL has been registered. -/
theorem config_errors_halt {W : Type} (cfg : Config) (E : Env W) (m : Machine W) :
    (∀ bss_size stack_size, stack_size ≠ 0 →
      vmpu_acl_stack cfg E 0 bss_size stack_size m =
        { status := .assert_failed, st := m, trace := [] }) ∧
    (∀ src_box dst_box,
      (E.vmpu_is_box_id_valid src_box m.world = false ∨
       E.vmpu_is_box_id_valid dst_box m.world = false) →
      vmpu_switch E src_box dst_box m =
        { status := .halted .SANITY_CHECK_FAILED, st := m, trace := [] }) ∧
    (∀ box_id, box_id ≠ 0 →
      vmpu_load_box E box_id m =
        { status := .halted .NOT_IMPLEMENTED, st := m, trace := [] }) ∧
    (∀ box_id stack_size, box_id ≠ 0 →
      (vmpu_acl_stack cfg E box_id 0 stack_size m).status = .assert_failed ∧
      (vmpu_acl_stack cfg E box_id 0 stack_size m).trace =
        [Event.add_static_acl box_id (cursor_at_use cfg m.acl_stack_g_box_mem_pos)
          (UVISOR_REGION_ROUND_UP cfg (UVISOR_MIN_STACK cfg stack_size))
          cfg.UVISOR_TACLDEF_STACK] ∧
      (vmpu_acl_stack cfg E box_id 0 stack_size m).st.acl_stack_g_box_mem_pos =
        u32 (u32 (cursor_at_use cfg m.acl_stack_g_box_mem_pos +
            UVISOR_REGION_ROUND_UP cfg (UVISOR_MIN_STACK cfg stack_size)) +
          cfg.UVISOR_STACK_BAND_SIZE) ∧
      ((vmpu_acl_stack cfg E box_id 0 stack_size m).st.g_context_current_states box_id).sp =
        u32 (cursor_at_use cfg m.acl_stack_g_box_mem_pos +
            UVISOR_REGION_ROUND_UP cfg (UVISOR_MIN_STACK cfg stack_size)) ∧
      ((vmpu_acl_stack cfg E box_id 0 stack_size m).st.g_context_current_states box_id).bss =
        (m.g_context_current_states box_id).bss ∧
      (vmpu_acl_stack cfg E box_id 0 stack_size m).st.mem = m.mem ∧
      (vmpu_acl_stack cfg E box_id 0 stack_size m).st.g_box_mem_pos = m.g_box_mem_pos) := by
  refine ⟨?_, ?_, ?_, ?_⟩
  · intro bss_size stack_size h
    unfold vmpu_acl_stack
    simp only [if_true, h, ne_eq, not_false_eq_true]
  · intro src_box dst_box h
    unfold vmpu_switch
    by_cases hs : E.vmpu_is_box_id_valid src_box m.world = false
    · simp [hs]
    · have hd : E.vmpu_is_box_id_valid dst_box m.world = false := by
        rcases h with h | h
        · exact absurd h hs
        · exact h
      simp [hd]
  · intro box_id h
    unfold vmpu_load_box
    simp only [h, ne_eq, not_false_eq_true, if_true]
  · intro box_id stack_size h
    rw [acl_stack_run_bss_zero cfg E box_id stack_size m h]
    refine ⟨rfl, rfl, rfl, ?_, ?_, rfl, rfl⟩
    · simp [set_context]
    · simp [set_context]

/-- Witness of C10 (amended) on the bring-up machine with three configured boxes:
box 0 with stack size 512, a switch to the invalid box 7, the load of box 1, and box 1
with a zero data size. -/
theorem config_errors_halt_witness :
    vmpu_acl_stack cfg0 boardEnv 0 256 512 machine0 =
      { status := .assert_failed, st := machine0, trace := [] } ∧
    vmpu_switch boardEnv 0 7 machine0 =
      { status := .halted .SANITY_CHECK_FAILED, st := machine0, trace := [] } ∧
    vmpu_load_box boardEnv 1 machine0 =
      { status := .halted .NOT_IMPLEMENTED, st := machine0, trace := [] } ∧
    (vmpu_acl_stack cfg0 boardEnv 1 0 512 machine0).status = .assert_failed :=
  ⟨(config_errors_halt cfg0 boardEnv machine0).1 256 512 (by decide),
   (config_errors_halt cfg0 boardEnv machine0).2.1 0 7 (Or.inr (by decide)),
   (config_errors_halt cfg0 boardEnv machine0).2.2.1 1 (by decide),
   ((config_errors_halt cfg0 boardEnv machine0).2.2.2 1 512 (by decide)).1⟩

/-! ## Box isolation -/

/-- The regions registered by a concatenated trace are those of its two parts. -/
theorem static_regions_append (t1 t2 : List Event) :
    static_regions (t1 ++ t2) = static_regions t1 ++ static_regions t2 := by
  induction t1 with
  | nil => rfl
  | cons e t ih => cases e <;> simp [static_regions, ih]

/-- One `vmpu_acl_stack` call whose cursor advances do not wrap: every region it
registers belongs to the box of the call and lies between the cursor at the point of
use and the cursor it leaves; and the cursor the next call will use is not below the
one this call used. This covers the returning call, the call stopped by the `assert`
of line 206 and the box 0 call. -/
theorem acl_stack_regions_bound {W : Type} (cfg : Config) (E : Env W)
    (box_id bss_size stack_size : Nat) (m : Machine W)
    (hfit : box_id ≠ 0 → cursor_fits cfg m.acl_stack_g_box_mem_pos bss_size stack_size) :
    (∀ reg ∈ static_regions (vmpu_acl_stack cfg E box_id bss_size stack_size m).trace,
      reg.box_id = box_id ∧
      cursor_at_use cfg m.acl_stack_g_box_mem_pos ≤ reg.start ∧
      reg.start + reg.size ≤
        (vmpu_acl_stack cfg E box_id bss_size stack_size m).st.acl_stack_g_box_mem_pos) ∧
    cursor_at_use cfg m.acl_stack_g_box_mem_pos ≤
      cursor_at_use cfg
        (vmpu_acl_stack cfg E box_id bss_size stack_size m).st.acl_stack_g_box_mem_pos := by
  by_cases hbox : box_id = 0
  · subst hbox
    unfold vmpu_acl_stack
    by_cases hs : stack_size = 0
    · simp [hs, static_regions]
    · simp [hs, static_regions]
  · have hf := hfit hbox
    by_cases hbss : bss_size = 0
    · subst hbss
      rw [acl_stack_run_bss_zero cfg E box_id stack_size m hbox]
      unfold cursor_fits at hf
      have e1 : u32 (cursor_at_use cfg m.acl_stack_g_box_mem_pos +
          UVISOR_REGION_ROUND_UP cfg (UVISOR_MIN_STACK cfg stack_size)) =
          cursor_at_use cfg m.acl_stack_g_box_mem_pos +
          UVISOR_REGION_ROUND_UP cfg (UVISOR_MIN_STACK cfg stack_size) :=
        u32_of_lt (by omega)
      have e2 : u32 (cursor_at_use cfg m.acl_stack_g_box_mem_pos +
          UVISOR_REGION_ROUND_UP cfg (UVISOR_MIN_STACK cfg stack_size) +
          cfg.UVISOR_STACK_BAND_SIZE) =
          cursor_at_use cfg m.acl_stack_g_box_mem_pos +
          UVISOR_REGION_ROUND_UP cfg (UVISOR_MIN_STACK cfg stack_size) +
          cfg.UVISOR_STACK_BAND_SIZE :=
        u32_of_lt (by omega)
      simp only [e1, e2, static_regions, List.mem_singleton]
      constructor
      · intro reg hreg
        subst hreg
        exact ⟨rfl, Nat.le_refl _, by simp only; omega⟩
      · have := le_cursor_at_use cfg (cursor_at_use cfg m.acl_stack_g_box_mem_pos +
          UVISOR_REGION_ROUND_UP cfg (UVISOR_MIN_STACK cfg stack_size) +
          cfg.UVISOR_STACK_BAND_SIZE)
        omega
    · rw [acl_stack_run_fits cfg E box_id bss_size stack_size m hbox hbss hf]
      simp only [static_regions, List.mem_cons, List.mem_singleton, List.not_mem_nil,
        or_false]
      constructor
      · intro reg hreg
        rcases hreg with rfl | rfl
        · exact ⟨rfl, Nat.le_refl _, by simp only; omega⟩
        · exact ⟨rfl, by simp only; omega, by simp only; omega⟩
      · have := le_cursor_at_use cfg (cursor_at_use cfg m.acl_stack_g_box_mem_pos +
          UVISOR_REGION_ROUND_UP cfg (UVISOR_MIN_STACK cfg stack_size) +
          cfg.UVISOR_STACK_BAND_SIZE + UVISOR_REGION_ROUND_UP cfg bss_size +
          cfg.UVISOR_STACK_BAND_SIZE)
        omega

/-- The run of a non-empty bring-up sequence: the first call, followed by the rest of
the sequence when the first call returns. -/
theorem run_acl_stack_cons {W : Type} (cfg : Config) (E : Env W) (c : LayoutCall)
    (rest : List LayoutCall) (m : Machine W) :
    (run_acl_stack cfg E (c :: rest) m).trace =
        (vmpu_acl_stack cfg E c.box_id c.bss_size c.stack_size m).trace ++
          (run_acl_stack cfg E rest
            (vmpu_acl_stack cfg E c.box_id c.bss_size c.stack_size m).st).trace ∨
    (run_acl_stack cfg E (c :: rest) m).trace =
        (vmpu_acl_stack cfg E c.box_id c.bss_size c.stack_size m).trace := by
  simp only [run_acl_stack]
  split
  · left; rfl
  · right; rfl

/-- In a bring-up sequence whose cursor advances do not wrap, no region is registered
below the cursor that the first call uses. -/
theorem run_acl_stack_regions_lower {W : Type} (cfg : Config) (E : Env W)
    (calls : List LayoutCall) :
    ∀ m : Machine W, cursor_fits_seq cfg E calls m →
      ∀ reg ∈ static_regions (run_acl_stack cfg E calls m).trace,
        cursor_at_use cfg m.acl_stack_g_box_mem_pos ≤ reg.start := by
  induction calls with
  | nil =>
    intro m _ reg hreg
    simp [run_acl_stack, static_regions] at hreg
  | cons c rest ih =>
    intro m hfit reg hreg
    have hb := acl_stack_regions_bound cfg E c.box_id c.bss_size c.stack_size m hfit.1
    rcases run_acl_stack_cons cfg E c rest m with h | h
    · rw [h, static_regions_append, List.mem_append] at hreg
      rcases hreg with hreg | hreg
      · exact (hb.1 reg hreg).2.1
      · have := ih _ hfit.2 reg hreg
        exact Nat.le_trans hb.2 this
    · rw [h] at hreg
      exact (hb.1 reg hreg).2.1

/-- C7, as stated, fails: in the bring-up sequence `calls_wrapping` (box 1, then
box 2, each laid out once), both calls return, and the stack region registered for
box 1 and the stack region registered for box 2 are the same range
`[0x20000400, 0x20001400)`: the 32-bit cursor has wrapped back to where box 1 began. -/
theorem box_regions_overlap :
    (run_acl_stack cfg0 boardEnv calls_wrapping machine0).status = .returned ∧
    ∃ r1 ∈ static_regions (run_acl_stack cfg0 boardEnv calls_wrapping machine0).trace,
    ∃ r2 ∈ static_regions (run_acl_stack cfg0 boardEnv calls_wrapping machine0).trace,
      r1.box_id ≠ r2.box_id ∧ ¬ r1.disjoint r2 := by
  refine ⟨by decide, { box_id := 1, start := 0x20000400, size := 4096 }, by decide,
    { box_id := 2, start := 0x20000400, size := 4096 }, by decide, by decide, ?_⟩
  intro h
  exact h 0x20000400 ⟨⟨by decide, by decide⟩, ⟨by decide, by decide⟩⟩

/-- C7, amended. After any sequence of `vmpu_acl_stack` calls in which no advance of
the 32-bit arena cursor wraps, every static region registered for a box is disjoint
from every static region registered for a different box. -/
theorem box_regions_disjoint {W : Type} (cfg : Config) (E : Env W)
    (calls : List LayoutCall) :
    ∀ m : Machine W, cursor_fits_seq cfg E calls m →
      ∀ r1 ∈ static_regions (run_acl_stack cfg E calls m).trace,
      ∀ r2 ∈ static_regions (run_acl_stack cfg E calls m).trace,
        r1.box_id ≠ r2.box_id → r1.disjoint r2 := by
  induction calls with
  | nil =>
    intro m _ r1 h1
    simp [run_acl_stack, static_regions] at h1
  | cons c rest ih =>
    intro m hfit r1 h1 r2 h2 hne
    have hb := acl_stack_regions_bound cfg E c.box_id c.bss_size c.stack_size m hfit.1
    have hlow := run_acl_stack_regions_lower cfg E rest _ hfit.2
    have hle := le_cursor_at_use cfg
      (vmpu_acl_stack cfg E c.box_id c.bss_size c.stack_size m).st.acl_stack_g_box_mem_pos
    rcases run_acl_stack_cons cfg E c rest m with h | h
    · rw [h, static_regions_append, List.mem_append] at h1 h2
      rcases h1 with h1 | h1 <;> rcases h2 with h2 | h2
      · exact absurd ((hb.1 r1 h1).1.trans (hb.1 r2 h2).1.symm) hne
      · have a1 := (hb.1 r1 h1).2.2
        have a2 := hlow r2 h2
        intro a ha
        unfold StaticRegion.contains at ha
        omega
      · have a1 := (hb.1 r2 h2).2.2
        have a2 := hlow r1 h1
        intro a ha
        unfold StaticRegion.contains at ha
        omega
      · exact ih _ hfit.2 r1 h1 r2 h2 hne
    · rw [h] at h1 h2
      exact absurd ((hb.1 r1 h1).1.trans (hb.1 r2 h2).1.symm) hne

/-- Witness of C7 (amended): in the bring-up sequence `calls_fitting` the stack region
of box 1 and the data region of box 2 are disjoint. -/
theorem box_regions_disjoint_witness :
    cursor_fits_seq cfg0 boardEnv calls_fitting machine0 ∧
    StaticRegion.disjoint { box_id := 1, start := 0x20000400, size := 4096 }
      { box_id := 2, start := 0x20004100, size := 512 } :=
  ⟨by decide,
   box_regions_disjoint cfg0 boardEnv calls_fitting machine0 (by decide)
     { box_id := 1, start := 0x20000400, size := 4096 } (by decide)
     { box_id := 2, start := 0x20004100, size := 512 } (by decide) (by decide)⟩

/-! ## Box 0 layout, box switch, page resolver -/

/-- C11. For box 0, `vmpu_acl_stack` stops exactly when `stack_size` is non-zero. With
`stack_size = 0` it returns for every `bss_size`: box 0's saved stack pointer is the
process stack pointer, its bss base is the main heap start, the contexts of the other
boxes are untouched, the trace is empty (no static ACL, no memory write), and memory,
both cursors and the external world are as at entry. -/
theorem acl_stack_box0 {W : Type} (cfg : Config) (E : Env W)
    (bss_size stack_size : Nat) (m : Machine W) :
    ((vmpu_acl_stack cfg E 0 bss_size stack_size m).status.isHalt = true ↔
      stack_size ≠ 0) ∧
    (stack_size = 0 →
      (vmpu_acl_stack cfg E 0 bss_size stack_size m).status = .returned ∧
      ((vmpu_acl_stack cfg E 0 bss_size stack_size m).st.g_context_current_states 0).sp =
        E.get_PSP m.world ∧
      ((vmpu_acl_stack cfg E 0 bss_size stack_size m).st.g_context_current_states 0).bss =
        cfg.heap_start ∧
      (∀ b, b ≠ 0 →
        (vmpu_acl_stack cfg E 0 bss_size stack_size m).st.g_context_current_states b =
          m.g_context_current_states b) ∧
      (vmpu_acl_stack cfg E 0 bss_size stack_size m).trace = [] ∧
      (vmpu_acl_stack cfg E 0 bss_size stack_size m).st.mem = m.mem ∧
      (vmpu_acl_stack cfg E 0 bss_size stack_size m).st.acl_stack_g_box_mem_pos =
        m.acl_stack_g_box_mem_pos ∧
      (vmpu_acl_stack cfg E 0 bss_size stack_size m).st.g_box_mem_pos = m.g_box_mem_pos ∧
      (vmpu_acl_stack cfg E 0 bss_size stack_size m).st.world = m.world) := by
  by_cases hs : stack_size = 0
  · subst hs
    refine ⟨?_, ?_⟩
    · simp [vmpu_acl_stack, Status.isHalt]
    · intro _
      refine ⟨?_, ?_, ?_, ?_, ?_, ?_, ?_, ?_, ?_⟩ <;>
        simp [vmpu_acl_stack, set_context]
      intro b hb
      simp [hb]
  · refine ⟨?_, fun h => absurd h hs⟩
    simp [vmpu_acl_stack, hs, Status.isHalt]

/-- Witness of C11: the scenario "box 0 laid out with `data = 0`, `stack = 0`" on the
bring-up machine returns with the saved stack pointer `0x20002000` (the PSP of the
board), the heap start as bss base, and no action. -/
theorem acl_stack_box0_witness :
    (vmpu_acl_stack cfg0 boardEnv 0 0 0 machine0).status = .returned ∧
    ((vmpu_acl_stack cfg0 boardEnv 0 0 0 machine0).st.g_context_current_states 0).sp =
      0x20002000 ∧
    ((vmpu_acl_stack cfg0 boardEnv 0 0 0 machine0).st.g_context_current_states 0).bss =
      0x20030000 ∧
    (vmpu_acl_stack cfg0 boardEnv 0 0 0 machine0).trace = [] :=
  ⟨((acl_stack_box0 cfg0 boardEnv 0 0 machine0).2 rfl).1,
   ((acl_stack_box0 cfg0 boardEnv 0 0 machine0).2 rfl).2.1,
   ((acl_stack_box0 cfg0 boardEnv 0 0 machine0).2 rfl).2.2.1,
   ((acl_stack_box0 cfg0 boardEnv 0 0 machine0).2 rfl).2.2.2.2.1⟩

/-- C12. `vmpu_switch(src_box, dst_box)` halts exactly when `src_box` or `dst_box` is
not a valid box ID. When both are valid it returns, its actions are the peripheral ACL
switch and then the memory-region ACL switch, each once and each with
`(src_box, dst_box)`, and the only part of the state that changes is the external
world, through these two calls. -/
theorem switch_halts_iff {W : Type} (E : Env W) (src_box dst_box : Nat) (m : Machine W) :
    ((vmpu_switch E src_box dst_box m).status.isHalt = true ↔
      (E.vmpu_is_box_id_valid src_box m.world = false ∨
       E.vmpu_is_box_id_valid dst_box m.world = false)) ∧
    (E.vmpu_is_box_id_valid src_box m.world = true →
     E.vmpu_is_box_id_valid dst_box m.world = true →
      (vmpu_switch E src_box dst_box m).status = .returned ∧
      (vmpu_switch E src_box dst_box m).trace =
        [Event.aips_switch src_box dst_box, Event.mem_switch src_box dst_box] ∧
      (vmpu_switch E src_box dst_box m).st =
        { m with world := E.vmpu_mem_switch src_box dst_box
                            (E.vmpu_aips_switch src_box dst_box m.world) }) := by
  by_cases hs : E.vmpu_is_box_id_valid src_box m.world = true
  · by_cases hd : E.vmpu_is_box_id_valid dst_box m.world = true
    · simp [vmpu_switch, hs, hd, Status.isHalt]
    · simp only [Bool.not_eq_true] at hd
      simp [vmpu_switch, hs, hd, Status.isHalt]
  · simp only [Bool.not_eq_true] at hs
    simp [vmpu_switch, hs, Status.isHalt]

/-- Witness of C12: on the board with three configured boxes the switch from box 0 to
box 2 returns after the two ACL switches, and leaves box 2 active in both tables. -/
theorem switch_halts_iff_witness :
    (boardEnv.vmpu_is_box_id_valid 0 machine0.world = true ∧
     boardEnv.vmpu_is_box_id_valid 2 machine0.world = true) ∧
    (vmpu_switch boardEnv 0 2 machine0).status = .returned ∧
    (vmpu_switch boardEnv 0 2 machine0).trace =
      [Event.aips_switch 0 2, Event.mem_switch 0 2] ∧
    (vmpu_switch boardEnv 0 2 machine0).st.world.active_aips = 2 ∧
    (vmpu_switch boardEnv 0 2 machine0).st.world.active_mem = 2 :=
  ⟨⟨by decide, by decide⟩,
   ((switch_halts_iff boardEnv 0 2 machine0).2 (by decide) (by decide)).1,
   ((switch_halts_iff boardEnv 0 2 machine0).2 (by decide) (by decide)).2.1,
   by decide, by decide⟩

/-- C13. `vmpu_fault_recovery_mpu` returns 0 exactly when the allocator lookup for
`fault_addr` reports `UVISOR_ERROR_PAGE_OK` and the installation of the page ACL for
the reported `(start, end)`, made after the fault registration, returns 0; otherwise
it returns `-1`. When the lookup succeeds the actions are, in this order, the lookup,
the registration of a fault against the reported page and the installation request;
when it fails the lookup is the only action and the world is unchanged. The run does
not depend on `pc` or `sp`. -/
theorem recovery_mpu_result {W : Type} (E : Env W) (pc sp fault_addr : Nat) (w : W) :
    let look := E.page_allocator_get_active_region_for_address fault_addr w
    let install := E.vmpu_mem_push_page_acl look.2.1 look.2.2.1
      (E.page_allocator_register_fault look.2.2.2 w)
    let r := vmpu_fault_recovery_mpu E pc sp fault_addr w
    (r.ret = 0 ↔ look.1 = E.UVISOR_ERROR_PAGE_OK ∧ install.1 = 0) ∧
    (r.ret ≠ 0 → r.ret = -1) ∧
    (look.1 = E.UVISOR_ERROR_PAGE_OK →
      r.trace = [Event.page_lookup fault_addr, Event.register_fault look.2.2.2,
                 Event.push_page_acl look.2.1 look.2.2.1] ∧
      r.st = install.2) ∧
    (look.1 ≠ E.UVISOR_ERROR_PAGE_OK →
      r.trace = [Event.page_lookup fault_addr] ∧ r.ret = -1 ∧ r.st = w) ∧
    (∀ pc2 sp2, vmpu_fault_recovery_mpu E pc2 sp2 fault_addr w = r) := by
  intro look install r
  have hl : look = E.page_allocator_get_active_region_for_address fault_addr w := rfl
  have hi : install = E.vmpu_mem_push_page_acl look.2.1 look.2.2.1
      (E.page_allocator_register_fault look.2.2.2 w) := rfl
  have hr : r = if look.1 = E.UVISOR_ERROR_PAGE_OK then
        (if install.1 ≠ 0 then
          { ret := -1, st := install.2,
            trace := [Event.page_lookup fault_addr, Event.register_fault look.2.2.2,
                      Event.push_page_acl look.2.1 look.2.2.1] }
        else
          { ret := 0, st := install.2,
            trace := [Event.page_lookup fault_addr, Event.register_fault look.2.2.2,
                      Event.push_page_acl look.2.1 look.2.2.1] })
      else { ret := -1, st := w, trace := [Event.page_lookup fault_addr] } := rfl
  have hpc : ∀ pc2 sp2, vmpu_fault_recovery_mpu E pc2 sp2 fault_addr w = r :=
    fun _ _ => rfl
  clear_value r install look
  clear hl hi
  refine ⟨?_, ?_, ?_, ?_, hpc⟩
  · by_cases h1 : look.1 = E.UVISOR_ERROR_PAGE_OK
    · by_cases h2 : install.1 = 0
      · simp [hr, h1, h2]
      · simp [hr, h1, h2]
    · simp [hr, h1]
  · intro _
    by_cases h1 : look.1 = E.UVISOR_ERROR_PAGE_OK
    · by_cases h2 : install.1 = 0
      · simp_all
      · simp [hr, h1, h2]
    · simp [hr, h1]
  · intro h1
    by_cases h2 : install.1 = 0
    · simp [hr, h1, h2]
    · simp [hr, h1, h2]
  · intro h1
    simp [hr, h1]

/-- Witness of C13 on `board0`: the address `0x20010010` lies in the page
`[0x20010000, 0x20012000)` with ID 3 and a slot is free, so the resolver returns 0
after lookup, fault registration and installation request. -/
theorem recovery_mpu_result_witness :
    (specEnv.page_allocator_get_active_region_for_address 0x20010010 board0).1 =
      specEnv.UVISOR_ERROR_PAGE_OK ∧
    (vmpu_fault_recovery_mpu specEnv 0x8000 0x20002000 0x20010010 board0).ret = 0 ∧
    (vmpu_fault_recovery_mpu specEnv 0x8000 0x20002000 0x20010010 board0).trace =
      [Event.page_lookup 0x20010010, Event.register_fault 3,
       Event.push_page_acl 0x20010000 0x20012000] :=
  ⟨by decide,
   (recovery_mpu_result specEnv 0x8000 0x20002000 0x20010010 board0).1.2
      ⟨by decide, by decide⟩,
   ((recovery_mpu_result specEnv 0x8000 0x20002000 0x20010010 board0).2.2.1
      (by decide)).1⟩

/-- The run of the page resolver when the allocator lookup succeeds. -/
theorem recovery_mpu_of_found {W : Type} (E : Env W) (pc sp fault_addr : Nat) (w : W)
    (hfound : (E.page_allocator_get_active_region_for_address fault_addr w).1 =
      E.UVISOR_ERROR_PAGE_OK) :
    ((vmpu_fault_recovery_mpu E pc sp fault_addr w).ret = 0 ↔
      (E.vmpu_mem_push_page_acl
        (E.page_allocator_get_active_region_for_address fault_addr w).2.1
        (E.page_allocator_get_active_region_for_address fault_addr w).2.2.1
        (E.page_allocator_register_fault
          (E.page_allocator_get_active_region_for_address fault_addr w).2.2.2 w)).1 = 0) ∧
    (vmpu_fault_recovery_mpu E pc sp fault_addr w).trace =
      [Event.page_lookup fault_addr,
       Event.register_fault
         (E.page_allocator_get_active_region_for_address fault_addr w).2.2.2,
       Event.push_page_acl
         (E.page_allocator_get_active_region_for_address fault_addr w).2.1
         (E.page_allocator_get_active_region_for_address fault_addr w).2.2.1] := by
  by_cases h2 : (E.vmpu_mem_push_page_acl
        (E.page_allocator_get_active_region_for_address fault_addr w).2.1
        (E.page_allocator_get_active_region_for_address fault_addr w).2.2.1
        (E.page_allocator_register_fault
          (E.page_allocator_get_active_region_for_address fault_addr w).2.2.2 w)).1 = 0
  · simp [vmpu_fault_recovery_mpu, hfound, h2]
  · simp [vmpu_fault_recovery_mpu, hfound, h2]

/-- The page resolver over the collaborators of the specification, for an address
inside the page owned by the active box: the lookup reports the page, a fault is
registered against it, and the installation of `[page_start, page_end)` is requested
in the world after the registration. -/
theorem spec_recovery_run (pc sp a : Nat) (b : Board)
    (hin : b.page_start ≤ a ∧ a < b.page_end) :
    (vmpu_fault_recovery_mpu specEnv pc sp a b).trace =
      [Event.page_lookup a, Event.register_fault b.page_id,
       Event.push_page_acl b.page_start b.page_end] ∧
    (vmpu_fault_recovery_mpu specEnv pc sp a b).st =
      (install_region b.page_start b.page_end
        { b with fault_count := b.fault_count + 1 }).2 ∧
    ((vmpu_fault_recovery_mpu specEnv pc sp a b).ret = 0 ↔
      (install_region b.page_start b.page_end
        { b with fault_count := b.fault_count + 1 }).1 = 0) := by
  have hlook : specEnv.page_allocator_get_active_region_for_address a b =
      (0, b.page_start, b.page_end, b.page_id) := by
    show find_owning_region a b = _
    unfold find_owning_region
    rw [if_pos hin]
  have hok : specEnv.UVISOR_ERROR_PAGE_OK = 0 := rfl
  have hreg : ∀ page, specEnv.page_allocator_register_fault page b =
      { b with fault_count := b.fault_count + 1 } := fun _ => rfl
  have hpush : ∀ s e w, specEnv.vmpu_mem_push_page_acl s e w = install_region s e w :=
    fun _ _ _ => rfl
  unfold vmpu_fault_recovery_mpu
  simp only [hlook, hok, hreg, hpush, if_true]
  by_cases h : (install_region b.page_start b.page_end
      { b with fault_count := b.fault_count + 1 }).1 = 0
  · simp [h]
  · simp [h]

/-- The installation of the specification, as a case analysis: it succeeds exactly
when the region is already installed or the table has a slot for dynamic regions;
after a success the region is installed; and for a region already installed it
changes nothing. Page bounds and slot count are never changed. -/
theorem install_region_spec (s e : Nat) (b : Board) :
    ((install_region s e b).1 = 0 ↔ ((s, e) ∈ b.installed ∨ 0 < b.slots)) ∧
    ((install_region s e b).1 = 0 → (s, e) ∈ (install_region s e b).2.installed) ∧
    ((s, e) ∈ b.installed → install_region s e b = (0, b)) ∧
    (install_region s e b).2.page_start = b.page_start ∧
    (install_region s e b).2.page_end = b.page_end ∧
    (install_region s e b).2.page_id = b.page_id ∧
    (install_region s e b).2.slots = b.slots := by
  unfold install_region
  by_cases h1 : (s, e) ∈ b.installed
  · simp [h1]
  · by_cases h2 : b.installed.length < b.slots
    · have : 0 < b.slots := by omega
      simp [h1, h2, this]
    · by_cases h3 : b.slots = 0
      · simp [h1, h2, h3]
      · have : 0 < b.slots := by omega
        simp [h1, h2, h3, this]

/-- C14, as stated, fails with the collaborators of the specification: on the board
whose region table has no slot for dynamic regions the address `0x20010010` lies
inside the page owned by the active box, and its resolution returns `-1` (failure)
already the first time, the installation having failed for want of a slot. -/
theorem page_resolution_fails_without_slot :
    (board_no_slot.page_start ≤ 0x20010010 ∧ 0x20010010 < board_no_slot.page_end) ∧
    (find_owning_region 0x20010010 board_no_slot).1 = 0 ∧
    (vmpu_fault_recovery_mpu specEnv 0x8000 0x20002000 0x20010010 board_no_slot).ret = -1 ∧
    (vmpu_fault_recovery_mpu specEnv 0x8000 0x20002000 0x20010010 board_no_slot).trace =
      [Event.page_lookup 0x20010010, Event.register_fault 3,
       Event.push_page_acl 0x20010000 0x20012000] := by
  refine ⟨⟨by decide, by decide⟩, by decide, by decide, by decide⟩

/-- C14, amended. With the collaborators of the specification, for every address
inside the page owned by the active box, when the region table has a slot for dynamic
regions or the page is already installed: resolving the address twice in a row yields
success both times; both resolutions perform the same three actions, the lookup, the
registration of a fault against the page and the request to install
`[page_start, page_end)` (the permissions are the installer's own, it receives only
the bounds); and the second resolution leaves the set of installed regions exactly as
the first left it. -/
theorem page_resolution_idempotent (pc sp a : Nat) (b : Board)
    (hin : b.page_start ≤ a ∧ a < b.page_end)
    (hslot : 0 < b.slots ∨ (b.page_start, b.page_end) ∈ b.installed) :
    let first := vmpu_fault_recovery_mpu specEnv pc sp a b
    let second := vmpu_fault_recovery_mpu specEnv pc sp a first.st
    first.ret = 0 ∧ second.ret = 0 ∧
    first.trace = [Event.page_lookup a, Event.register_fault b.page_id,
                   Event.push_page_acl b.page_start b.page_end] ∧
    second.trace = first.trace ∧
    (b.page_start, b.page_end) ∈ first.st.installed ∧
    second.st.installed = first.st.installed := by
  intro first second
  have h1 := spec_recovery_run pc sp a b hin
  have hi1 := install_region_spec b.page_start b.page_end
    { b with fault_count := b.fault_count + 1 }
  have hret1 : first.ret = 0 := h1.2.2.2 (hi1.1.2 (by
    rcases hslot with h | h
    · exact Or.inr h
    · exact Or.inl h))
  have hst1 : first.st = (install_region b.page_start b.page_end
      { b with fault_count := b.fault_count + 1 }).2 := h1.2.1
  have hmem : (b.page_start, b.page_end) ∈ first.st.installed := by
    rw [hst1]
    exact hi1.2.1 (h1.2.2.1 hret1)
  have hps : first.st.page_start = b.page_start := by rw [hst1]; exact hi1.2.2.2.1
  have hpe : first.st.page_end = b.page_end := by rw [hst1]; exact hi1.2.2.2.2.1
  have hpi : first.st.page_id = b.page_id := by rw [hst1]; exact hi1.2.2.2.2.2.1
  have hin2 : first.st.page_start ≤ a ∧ a < first.st.page_end := by
    rw [hps, hpe]; exact hin
  have h2 := spec_recovery_run pc sp a first.st hin2
  have hi2 := install_region_spec first.st.page_start first.st.page_end
    { first.st with fault_count := first.st.fault_count + 1 }
  have hmem2 : (first.st.page_start, first.st.page_end) ∈
      ({ first.st with fault_count := first.st.fault_count + 1 } : Board).installed := by
    rw [hps, hpe]; exact hmem
  have hnoop := hi2.2.2.1 hmem2
  have hret2 : second.ret = 0 := h2.2.2.2 (by rw [hnoop])
  have htr2 : second.trace = first.trace := by
    rw [h2.1, h1.1, hps, hpe, hpi]
  have hst2 : second.st.installed = first.st.installed := by
    rw [h2.2.1, hnoop]
  exact ⟨hret1, hret2, h1.1, htr2, hmem, hst2⟩

/-- Witness of C14 (amended) on the board with a single region slot: both resolutions
of `0x20010010` return 0, and after each of them the only installed region is the
page `[0x20010000, 0x20012000)`. -/
theorem page_resolution_idempotent_witness :
    ((board_one_slot.page_start ≤ 0x20010010 ∧ 0x20010010 < board_one_slot.page_end) ∧
      0 < board_one_slot.slots) ∧
    (vmpu_fault_recovery_mpu specEnv 0x8000 0x20002000 0x20010010 board_one_slot).ret = 0 ∧
    (vmpu_fault_recovery_mpu specEnv 0x8000 0x20002000 0x20010010
      (vmpu_fault_recovery_mpu specEnv 0x8000 0x20002000 0x20010010
        board_one_slot).st).ret = 0 ∧
    ((vmpu_fault_recovery_mpu specEnv 0x8000 0x20002000 0x20010010
      (vmpu_fault_recovery_mpu specEnv 0x8000 0x20002000 0x20010010
        board_one_slot).st).ret,
     (vmpu_fault_recovery_mpu specEnv 0x8000 0x20002000 0x20010010
      (vmpu_fault_recovery_mpu specEnv 0x8000 0x20002000 0x20010010
        board_one_slot).st).st.installed) = (0, [(0x20010000, 0x20012000)]) :=
  ⟨⟨⟨by decide, by decide⟩, by decide⟩,
   (page_resolution_idempotent 0x8000 0x20002000 0x20010010 board_one_slot
      ⟨by decide, by decide⟩ (Or.inl (by decide))).1,
   (page_resolution_idempotent 0x8000 0x20002000 0x20010010 board_one_slot
      ⟨by decide, by decide⟩ (Or.inl (by decide))).2.1,
   by decide⟩

/-! ## Static ACL resolver: theorems -/

/-- The static resolver past the SCR check (lines 259-272). -/
theorem find_acl_not_scr {W : Type} (A : AclEnv W) (fault_addr size : Nat) (m : Machine W)
    (hscr : fault_addr ≠ A.SCB_SCR) :
    vmpu_fault_find_acl A fault_addr size m =
      if A.AIPS0_BASE ≤ bitband_translate A fault_addr ∧
          bitband_translate A fault_addr < aips_end A then
        { ret := A.vmpu_fault_find_acl_aips (A.g_active_box m.world)
            (bitband_translate A fault_addr) size m.world,
          st := m, lookup_addr := some (bitband_translate A fault_addr),
          lookups := [(A.g_active_box m.world, bitband_translate A fault_addr, size)] }
      else
        { ret := 0, st := m, lookup_addr := some (bitband_translate A fault_addr),
          lookups := [] } := by
  unfold vmpu_fault_find_acl
  simp only [hscr, if_false]

/-- The static resolver at the SCR address returns before the translation step. -/
theorem find_acl_scr_aux {W : Type} (A : AclEnv W) (size : Nat) (m : Machine W) :
    (vmpu_fault_find_acl A A.SCB_SCR size m).lookup_addr = none := by
  unfold vmpu_fault_find_acl
  simp only [if_true]

/-- C15. Called with the address of the system control register, the static resolver
returns exactly `UVISOR_TACL_UWRITE | UVISOR_TACL_UREAD`, for every access size and
every state (so every active box): it returns before the translation step, the
peripheral ACL table is not consulted, and the state is unchanged. -/
theorem find_acl_scr {W : Type} (A : AclEnv W) (size : Nat) (m : Machine W) :
    (vmpu_fault_find_acl A A.SCB_SCR size m).ret =
      A.UVISOR_TACL_UWRITE ||| A.UVISOR_TACL_UREAD ∧
    (vmpu_fault_find_acl A A.SCB_SCR size m).lookup_addr = none ∧
    (vmpu_fault_find_acl A A.SCB_SCR size m).lookups = [] ∧
    (vmpu_fault_find_acl A A.SCB_SCR size m).st = m := by
  refine ⟨?_, ?_, ?_, ?_⟩ <;> simp [vmpu_fault_find_acl]

/-- C16. For a fault address other than the SCR address, with `a` the address after
bit-band translation and the peripheral bridge range `AIPS0_BASE + 0xFE *
AIPSx_SLOT_SIZE` a 32-bit value: when `a` lies in the range, the resolver returns the
result of the peripheral ACL lookup for `(g_active_box, a, size)`, the table being
consulted once; otherwise it returns 0 and the table is not consulted. In both cases
the state is unchanged. -/
theorem find_acl_aips_range {W : Type} (A : AclEnv W) (fault_addr size : Nat)
    (m : Machine W) (hscr : fault_addr ≠ A.SCB_SCR)
    (hrange : A.AIPS0_BASE + 0xFE * A.AIPSx_SLOT_SIZE < 4294967296) :
    let a := bitband_translate A fault_addr
    let r := vmpu_fault_find_acl A fault_addr size m
    (A.AIPS0_BASE ≤ a ∧ a < A.AIPS0_BASE + 0xFE * A.AIPSx_SLOT_SIZE →
      r.ret = A.vmpu_fault_find_acl_aips (A.g_active_box m.world) a size m.world ∧
      r.lookups = [(A.g_active_box m.world, a, size)]) ∧
    (¬ (A.AIPS0_BASE ≤ a ∧ a < A.AIPS0_BASE + 0xFE * A.AIPSx_SLOT_SIZE) →
      r.ret = 0 ∧ r.lookups = []) ∧
    r.st = m := by
  intro a r
  have hend : aips_end A = A.AIPS0_BASE + 0xFE * A.AIPSx_SLOT_SIZE := by
    unfold aips_end
    rw [u32_of_lt (x := 0xFE * A.AIPSx_SLOT_SIZE) (by omega), u32_of_lt hrange]
  have hr : r = vmpu_fault_find_acl A fault_addr size m := rfl
  have ha : a = bitband_translate A fault_addr := rfl
  rw [find_acl_not_scr A fault_addr size m hscr, ← ha, hend] at hr
  clear_value r a
  by_cases hin : A.AIPS0_BASE ≤ a ∧ a < A.AIPS0_BASE + 0xFE * A.AIPSx_SLOT_SIZE
  · rw [if_pos hin] at hr
    subst hr
    exact ⟨fun _ => ⟨rfl, rfl⟩, fun h => absurd hin h, rfl⟩
  · rw [if_neg hin] at hr
    subst hr
    exact ⟨fun h => absurd h hin, fun _ => ⟨rfl, rfl⟩, rfl⟩

/-- Witness of C16 on the K64 layout: a read of 4 bytes at `0x4006A004`, inside the
peripheral bridge, returns what the table grants box 0 there (`0x6`), and a read at
`0x20000400`, outside the bridge, returns 0 without consulting the table. -/
theorem find_acl_aips_range_witness :
    ((0x4006A004 : Nat) ≠ k64Acl.SCB_SCR ∧
      k64Acl.AIPS0_BASE + 0xFE * k64Acl.AIPSx_SLOT_SIZE < 4294967296) ∧
    ((vmpu_fault_find_acl k64Acl 0x4006A004 4 machine0).ret = 0x6 ∧
     (vmpu_fault_find_acl k64Acl 0x4006A004 4 machine0).lookups = [(0, 0x4006A004, 4)]) ∧
    ((vmpu_fault_find_acl k64Acl 0x20000400 4 machine0).ret = 0 ∧
     (vmpu_fault_find_acl k64Acl 0x20000400 4 machine0).lookups = []) :=
  ⟨⟨by decide, by decide⟩,
   (find_acl_aips_range k64Acl 0x4006A004 4 machine0 (by decide) (by decide)).1
     ⟨by decide, by decide⟩,
   (find_acl_aips_range k64Acl 0x20000400 4 machine0 (by decide) (by decide)).2.1
     (by decide)⟩

/-- C17. On a platform whose two bit-band alias windows are disjoint and do not hold
the SCR address: for a fault address in the peripheral alias window the address the
resolver looks up is `VMPU_PERIPH_BITBAND_ALIAS_TO_ADDR(fault_addr)`; for one in the
SRAM alias window it is `VMPU_SRAM_BITBAND_ALIAS_TO_ADDR(fault_addr)`; for one in
neither window the resolver looks up no address other than `fault_addr`, and looks up
`fault_addr` itself unless it is the SCR address, for which it returns at once. -/
theorem find_acl_lookup_addr {W : Type} (A : AclEnv W) (fault_addr size : Nat)
    (m : Machine W)
    (hdisj : A.VMPU_SRAM_BITBAND_END < A.VMPU_PERIPH_BITBAND_START ∨
      A.VMPU_PERIPH_BITBAND_END < A.VMPU_SRAM_BITBAND_START)
    (hscr_p : ¬ (A.VMPU_PERIPH_BITBAND_START ≤ A.SCB_SCR ∧
      A.SCB_SCR ≤ A.VMPU_PERIPH_BITBAND_END))
    (hscr_s : ¬ (A.VMPU_SRAM_BITBAND_START ≤ A.SCB_SCR ∧
      A.SCB_SCR ≤ A.VMPU_SRAM_BITBAND_END)) :
    (A.VMPU_PERIPH_BITBAND_START ≤ fault_addr ∧ fault_addr ≤ A.VMPU_PERIPH_BITBAND_END →
      (vmpu_fault_find_acl A fault_addr size m).lookup_addr =
        some (A.VMPU_PERIPH_BITBAND_ALIAS_TO_ADDR fault_addr)) ∧
    (A.VMPU_SRAM_BITBAND_START ≤ fault_addr ∧ fault_addr ≤ A.VMPU_SRAM_BITBAND_END →
      (vmpu_fault_find_acl A fault_addr size m).lookup_addr =
        some (A.VMPU_SRAM_BITBAND_ALIAS_TO_ADDR fault_addr)) ∧
    (¬ (A.VMPU_PERIPH_BITBAND_START ≤ fault_addr ∧
        fault_addr ≤ A.VMPU_PERIPH_BITBAND_END) →
     ¬ (A.VMPU_SRAM_BITBAND_START ≤ fault_addr ∧ fault_addr ≤ A.VMPU_SRAM_BITBAND_END) →
      (∀ a, (vmpu_fault_find_acl A fault_addr size m).lookup_addr = some a →
        a = fault_addr) ∧
      (fault_addr ≠ A.SCB_SCR →
        (vmpu_fault_find_acl A fault_addr size m).lookup_addr = some fault_addr)) := by
  have hla : fault_addr ≠ A.SCB_SCR →
      (vmpu_fault_find_acl A fault_addr size m).lookup_addr =
        some (bitband_translate A fault_addr) := by
    intro hscr
    rw [find_acl_not_scr A fault_addr size m hscr]
    split <;> rfl
  refine ⟨?_, ?_, ?_⟩
  · intro hp
    have hscr : fault_addr ≠ A.SCB_SCR := fun h => hscr_p (h ▸ hp)
    rw [hla hscr]
    simp only [bitband_translate, hp, and_self, if_true]
  · intro hs
    have hscr : fault_addr ≠ A.SCB_SCR := fun h => hscr_s (h ▸ hs)
    have hnp : ¬ (A.VMPU_PERIPH_BITBAND_START ≤ fault_addr ∧
        fault_addr ≤ A.VMPU_PERIPH_BITBAND_END) := by
      intro hp
      omega
    rw [hla hscr]
    simp only [bitband_translate, hnp, hs, and_self, if_true, if_false]
  · intro hnp hns
    have htr : bitband_translate A fault_addr = fault_addr := by
      simp only [bitband_translate, hnp, hns, if_false]
    refine ⟨?_, ?_⟩
    · intro a ha
      by_cases hscr : fault_addr = A.SCB_SCR
      · subst hscr
        rw [(find_acl_scr_aux A size m)] at ha
        cases ha
      · rw [hla hscr, htr] at ha
        exact (Option.some.inj ha).symm
    · intro hscr
      rw [hla hscr, htr]

/-- Witness of C17 on the K64 layout: the alias `0x42D40080` of the peripheral window
is looked up as `0x4006A004`, the alias `0x22000400` of the SRAM window as
`0x20000020`, and the SRAM address `0x20000400`, in neither window, as itself. -/
theorem find_acl_lookup_addr_witness :
    (vmpu_fault_find_acl k64Acl 0x42D40080 4 machine0).lookup_addr = some 0x4006A004 ∧
    (vmpu_fault_find_acl k64Acl 0x22000400 4 machine0).lookup_addr = some 0x20000020 ∧
    (vmpu_fault_find_acl k64Acl 0x20000400 4 machine0).lookup_addr = some 0x20000400 :=
  ⟨(find_acl_lookup_addr k64Acl 0x42D40080 4 machine0 (Or.inl (by decide))
      (by decide) (by decide)).1 ⟨by decide, by decide⟩,
   (find_acl_lookup_addr k64Acl 0x22000400 4 machine0 (Or.inl (by decide))
      (by decide) (by decide)).2.1 ⟨by decide, by decide⟩,
   ((find_acl_lookup_addr k64Acl 0x20000400 4 machine0 (Or.inl (by decide))
      (by decide) (by decide)).2.2 (by decide) (by decide)).2 (by decide)⟩

/-! ## Round-up in the layout -/

/-- When the granularity is non-zero and the addition inside the round-up does not
wrap, `UVISOR_REGION_ROUND_UP` yields a multiple of the granularity that is not below
its argument, and it returns an aligned argument unchanged. -/
theorem round_up_spec (cfg : Config) (x : Nat) (hG : cfg.UVISOR_REGION_SIZE ≠ 0)
    (hx : x + (cfg.UVISOR_REGION_SIZE - 1) < 4294967296) :
    cfg.UVISOR_REGION_SIZE ∣ UVISOR_REGION_ROUND_UP cfg x ∧
    x ≤ UVISOR_REGION_ROUND_UP cfg x ∧
    (cfg.UVISOR_REGION_SIZE ∣ x → UVISOR_REGION_ROUND_UP cfg x = x) := by
  unfold UVISOR_REGION_ROUND_UP
  rw [u32_of_lt hx]
  have hpos : 0 < cfg.UVISOR_REGION_SIZE := Nat.pos_of_ne_zero hG
  refine ⟨Nat.dvd_mul_left _ _, ?_, ?_⟩
  · have h1 := Nat.div_add_mod (x + (cfg.UVISOR_REGION_SIZE - 1)) cfg.UVISOR_REGION_SIZE
    have h2 := Nat.mod_lt (x + (cfg.UVISOR_REGION_SIZE - 1)) hpos
    rw [Nat.mul_comm] at h1
    omega
  · rintro ⟨k, rfl⟩
    rw [Nat.mul_add_div hpos, Nat.div_eq_of_lt (by omega), Nat.add_zero, Nat.mul_comm]

/-- C18, as stated, fails: for box 1 with `stack_size = 0xFFFFFFFF` on the platform of
the layout scenario the call returns and the stack region it registers has size 0,
below the minimum stack size 4096 and below the requested size: the 32-bit round-up
has wrapped. -/
theorem layout_round_up_wraps :
    (vmpu_acl_stack cfg0 boardEnv 1 256 0xFFFFFFFF machine0).status = .returned ∧
    (static_regions (vmpu_acl_stack cfg0 boardEnv 1 256 0xFFFFFFFF machine0).trace).head? =
      some { box_id := 1, start := 0x20000400, size := 0 } ∧
    ¬ (cfg0.UVISOR_MIN_STACK_SIZE ≤ 0) ∧ ¬ (0xFFFFFFFF ≤ 0) := by
  refine ⟨by decide, by decide, by decide, by decide⟩

/-- C18, amended. In `vmpu_acl_stack` for a non-zero box with a non-zero data size,
when the granularity is non-zero and neither round-up wraps around 32 bits, the two
registered regions are the stack region of size `S` and the data region of size `D`
where: `S` is a multiple of the granularity, at least the minimum stack size and at
least the requested `stack_size`, and equals `stack_size` when that is aligned and not
below the minimum; `D` is a multiple of the granularity, at least `bss_size`, and
equals `bss_size` when that is aligned. -/
theorem layout_round_up {W : Type} (cfg : Config) (E : Env W)
    (box_id bss_size stack_size : Nat) (m : Machine W)
    (hbox : box_id ≠ 0) (hbss : bss_size ≠ 0)
    (hG : cfg.UVISOR_REGION_SIZE ≠ 0)
    (hs : UVISOR_MIN_STACK cfg stack_size + (cfg.UVISOR_REGION_SIZE - 1) < 4294967296)
    (hb : bss_size + (cfg.UVISOR_REGION_SIZE - 1) < 4294967296) :
    let S := UVISOR_REGION_ROUND_UP cfg (UVISOR_MIN_STACK cfg stack_size)
    let D := UVISOR_REGION_ROUND_UP cfg bss_size
    (∃ s1 s2, static_regions (vmpu_acl_stack cfg E box_id bss_size stack_size m).trace =
      [{ box_id := box_id, start := s1, size := S },
       { box_id := box_id, start := s2, size := D }]) ∧
    cfg.UVISOR_REGION_SIZE ∣ S ∧
    cfg.UVISOR_MIN_STACK_SIZE ≤ S ∧
    stack_size ≤ S ∧
    (cfg.UVISOR_REGION_SIZE ∣ stack_size → cfg.UVISOR_MIN_STACK_SIZE ≤ stack_size →
      S = stack_size) ∧
    cfg.UVISOR_REGION_SIZE ∣ D ∧
    bss_size ≤ D ∧
    (cfg.UVISOR_REGION_SIZE ∣ bss_size → D = bss_size) := by
  intro S D
  have hS := round_up_spec cfg (UVISOR_MIN_STACK cfg stack_size) hG hs
  have hD := round_up_spec cfg bss_size hG hb
  have hmin : cfg.UVISOR_MIN_STACK_SIZE ≤ UVISOR_MIN_STACK cfg stack_size ∧
      stack_size ≤ UVISOR_MIN_STACK cfg stack_size := by
    unfold UVISOR_MIN_STACK
    split <;> omega
  have hSle : UVISOR_MIN_STACK cfg stack_size ≤ S := hS.2.1
  refine ⟨?_, hS.1, by omega, by omega, ?_, hD.1, hD.2.1, hD.2.2⟩
  · rw [acl_stack_run_eq cfg E box_id bss_size stack_size m hbox hbss]
    exact ⟨_, _, rfl⟩
  · intro hdvd hge
    have hms : UVISOR_MIN_STACK cfg stack_size = stack_size := by
      unfold UVISOR_MIN_STACK
      rw [if_neg (by omega)]
    have := hS.2.2
    rw [hms] at this
    show UVISOR_REGION_ROUND_UP cfg (UVISOR_MIN_STACK cfg stack_size) = stack_size
    rw [hms]
    exact this hdvd

/-- Witness of C18 (amended), the layout scenario: `stack = 512` is raised to the
minimum 4096, `data = 256` is already a multiple of 32 and stays 256. -/
theorem layout_round_up_witness :
    UVISOR_REGION_ROUND_UP cfg0 (UVISOR_MIN_STACK cfg0 512) = 4096 ∧
    cfg0.UVISOR_REGION_SIZE ∣ UVISOR_REGION_ROUND_UP cfg0 (UVISOR_MIN_STACK cfg0 512) ∧
    UVISOR_REGION_ROUND_UP cfg0 256 = 256 :=
  ⟨by decide,
   (layout_round_up cfg0 boardEnv 1 256 512 machine0 (by decide) (by decide) (by decide)
      (by decide) (by decide)).2.1,
   (layout_round_up cfg0 boardEnv 1 256 512 machine0 (by decide) (by decide) (by decide)
      (by decide) (by decide)).2.2.2.2.2.2.2 (by decide)⟩

/-! ## The file-scope cursor -/

/-- One `vmpu_acl_stack` call leaves the file-scope `g_box_mem_pos` as it was. -/
theorem acl_stack_keeps_global {W : Type} (cfg : Config) (E : Env W)
    (box_id bss_size stack_size : Nat) (m : Machine W) :
    (vmpu_acl_stack cfg E box_id bss_size stack_size m).st.g_box_mem_pos =
      m.g_box_mem_pos := by
  unfold vmpu_acl_stack
  split
  · split <;> rfl
  · split <;> rfl

/-- C20. The file-scope variable `g_box_mem_pos` is never written by `vmpu_acl_stack`:
after any sequence of calls it holds the value it had before the sequence, hence its
initial value 0 when it started at 0. The cursor that the calls advance is the
function-local static of the same name. -/
theorem global_cursor_untouched {W : Type} (cfg : Config) (E : Env W)
    (calls : List LayoutCall) :
    ∀ m : Machine W,
      (run_acl_stack cfg E calls m).st.g_box_mem_pos = m.g_box_mem_pos ∧
      (m.g_box_mem_pos = 0 → (run_acl_stack cfg E calls m).st.g_box_mem_pos = 0) := by
  have key : ∀ (cs : List LayoutCall) (m : Machine W),
      (run_acl_stack cfg E cs m).st.g_box_mem_pos = m.g_box_mem_pos := by
    intro cs
    induction cs with
    | nil => intro m; rfl
    | cons c rest ih =>
      intro m
      have h1 := acl_stack_keeps_global cfg E c.box_id c.bss_size c.stack_size m
      simp only [run_acl_stack]
      split
      · show (run_acl_stack cfg E rest _).st.g_box_mem_pos = _
        rw [ih, h1]
      · exact h1
  intro m
  exact ⟨key calls m, fun h0 => (key calls m).trans h0⟩

/-- Witness of C20: after the bring-up sequence `calls_fitting` from `machine0` the
file-scope `g_box_mem_pos` is still 0 while the function-local cursor has advanced to
`0x20004700`. -/
theorem global_cursor_untouched_witness :
    machine0.g_box_mem_pos = 0 ∧
    (run_acl_stack cfg0 boardEnv calls_fitting machine0).st.g_box_mem_pos = 0 ∧
    (run_acl_stack cfg0 boardEnv calls_fitting machine0).st.acl_stack_g_box_mem_pos =
      0x20004700 :=
  ⟨rfl,
   (global_cursor_untouched cfg0 boardEnv calls_fitting machine0).2 rfl,
   by decide⟩

/-! ## Fault address selection -/

/-- The trace of the tail of the unprivileged bus-fault path: what was done before,
then the call of the corner-case resolver with the given address and status, then only
fault reports and status writes. -/
theorem bus_fault_tail_trace {W : Type} (E : Env W) (lr psp pc fa fs : Nat) (w : W)
    (pre : List Event) :
    ∃ rest, (bus_fault_tail E lr psp pc fa fs w pre).trace =
        pre ++ Event.recovery_bus pc psp fa fs :: rest ∧
      ∀ e ∈ rest, e = Event.debug_fault .FAULT_BUS lr psp ∨ e = Event.write_BFSR fs := by
  unfold bus_fault_tail
  by_cases h : (E.vmpu_fault_recovery_bus pc psp fa fs w).1 = 0
  · refine ⟨[Event.write_BFSR fs], ?_, ?_⟩
    · simp [h]
    · intro e he
      simp only [List.mem_singleton] at he
      exact Or.inr he
  · refine ⟨[Event.debug_fault .FAULT_BUS lr psp, Event.write_BFSR fs], ?_, ?_⟩
    · simp [h]
    · intro e he
      simp only [List.mem_cons, List.mem_singleton, List.not_mem_nil, or_false] at he
      exact he

/-- The trace of the page resolver begins with the lookup of the address it was given
and holds no call of the corner-case resolver. -/
theorem recovery_mpu_trace_head {W : Type} (E : Env W) (pc sp fault_addr : Nat) (w : W) :
    (∃ rest, (vmpu_fault_recovery_mpu E pc sp fault_addr w).trace =
      Event.page_lookup fault_addr :: rest) ∧
    (∀ a b c d, Event.recovery_bus a b c d ∉
      (vmpu_fault_recovery_mpu E pc sp fault_addr w).trace) := by
  rcases recovery_mpu_trace_cases E pc sp fault_addr w with h | h
  · rw [h]
    exact ⟨⟨[], rfl⟩, by simp⟩
  · rw [h]
    exact ⟨⟨_, rfl⟩, by simp⟩

/-- C19. On the unprivileged bus-fault path: when a single slave port `p ≥ 0` is
identified, the first action is the page lookup of `MPU->SP[p].EAR`, and any call of
the corner-case resolver carries that address and the saved status; when no single
port is identified (`p < 0`), the first action is the call of the corner-case resolver
with the `BFAR` snapshot and the saved status, and the trace holds no page lookup, no
fault registration and no region installation. The latter holds in particular when
`p` is `VMPU_FAULT_MULTIPLE`, a negative value. -/
theorem bus_fault_address_selection {W : Type} (E : Env W) (lr msp : Nat) (w : W)
    (hirq : active_irqn E w = BusFault_IRQn) (hlr : lr &&& 4 ≠ 0) :
    let psp := E.get_PSP w
    let pc := E.vmpu_unpriv_uint32_read (u32 (psp + 6 * 4)) w
    let fs := E.VMPU_SCB_BFSR w
    let p := E.vmpu_fault_get_slave_port w
    let r := vmpu_sys_mux_handler E lr msp w
    (0 ≤ p →
      (∃ rest, r.trace = Event.page_lookup (E.MPU_SP_EAR p w) :: rest) ∧
      (∀ a b c d, Event.recovery_bus a b c d ∈ r.trace →
        c = E.MPU_SP_EAR p w ∧ d = fs)) ∧
    (p < 0 →
      (∃ rest, r.trace = Event.recovery_bus pc psp (E.SCB_BFAR w) fs :: rest) ∧
      (∀ e ∈ r.trace, e.is_resolver_action = true →
        e = Event.recovery_bus pc psp (E.SCB_BFAR w) fs)) ∧
    (p = E.VMPU_FAULT_MULTIPLE → E.VMPU_FAULT_MULTIPLE < 0 →
      (∃ rest, r.trace = Event.recovery_bus pc psp (E.SCB_BFAR w) fs :: rest) ∧
      (∀ e ∈ r.trace, e.is_resolver_action = true →
        e = Event.recovery_bus pc psp (E.SCB_BFAR w) fs)) := by
  intro psp pc fs p r
  have hr : r = vmpu_sys_mux_handler E lr msp w := rfl
  rw [handler_unprivileged_bus_fault E lr msp w hirq hlr] at hr
  have hr2 : r = if 0 ≤ p then
        (if (vmpu_fault_recovery_mpu E pc psp (E.MPU_SP_EAR p w) w).ret = 0 then
          { status := .returned,
            st := E.vmpu_fault_clear_slave_port p (E.write_VMPU_SCB_BFSR fs
              (vmpu_fault_recovery_mpu E pc psp (E.MPU_SP_EAR p w) w).st),
            trace := (vmpu_fault_recovery_mpu E pc psp (E.MPU_SP_EAR p w) w).trace ++
              [Event.write_BFSR fs, Event.clear_slave_port p] }
        else bus_fault_tail E lr psp pc (E.MPU_SP_EAR p w) fs
          (vmpu_fault_recovery_mpu E pc psp (E.MPU_SP_EAR p w) w).st
          (vmpu_fault_recovery_mpu E pc psp (E.MPU_SP_EAR p w) w).trace)
      else bus_fault_tail E lr psp pc (E.SCB_BFAR w) fs w [] := hr
  clear hr
  have hneg : p < 0 →
      (∃ rest, r.trace = Event.recovery_bus pc psp (E.SCB_BFAR w) fs :: rest) ∧
      (∀ e ∈ r.trace, e.is_resolver_action = true →
        e = Event.recovery_bus pc psp (E.SCB_BFAR w) fs) := by
    intro hp
    have hnp : ¬ 0 ≤ p := by omega
    rw [if_neg hnp] at hr2
    obtain ⟨rest, ht, hrest⟩ := bus_fault_tail_trace E lr psp pc (E.SCB_BFAR w) fs w []
    rw [← hr2] at ht
    rw [List.nil_append] at ht
    refine ⟨⟨rest, ht⟩, ?_⟩
    intro e he hres
    rw [ht] at he
    rcases List.mem_cons.1 he with h | h
    · exact h
    · rcases hrest e h with h2 | h2
      · rw [h2] at hres; simp [Event.is_resolver_action] at hres
      · rw [h2] at hres; simp [Event.is_resolver_action] at hres
  refine ⟨?_, hneg, ?_⟩
  · intro hp
    rw [if_pos hp] at hr2
    obtain ⟨⟨mrest, hm⟩, hnb⟩ :=
      recovery_mpu_trace_head E pc psp (E.MPU_SP_EAR p w) w
    by_cases hret : (vmpu_fault_recovery_mpu E pc psp (E.MPU_SP_EAR p w) w).ret = 0
    · rw [if_pos hret] at hr2
      have ht : r.trace = (vmpu_fault_recovery_mpu E pc psp (E.MPU_SP_EAR p w) w).trace ++
          [Event.write_BFSR fs, Event.clear_slave_port p] := by rw [hr2]
      refine ⟨⟨mrest ++ [Event.write_BFSR fs, Event.clear_slave_port p], ?_⟩, ?_⟩
      · rw [ht, hm]; rfl
      · intro a b c d hmem
        rw [ht, List.mem_append] at hmem
        rcases hmem with h | h
        · exact absurd h (hnb a b c d)
        · simp at h
    · rw [if_neg hret] at hr2
      obtain ⟨rest, ht, hrest⟩ := bus_fault_tail_trace E lr psp pc (E.MPU_SP_EAR p w) fs
        (vmpu_fault_recovery_mpu E pc psp (E.MPU_SP_EAR p w) w).st
        (vmpu_fault_recovery_mpu E pc psp (E.MPU_SP_EAR p w) w).trace
      rw [← hr2] at ht
      refine ⟨⟨mrest ++ Event.recovery_bus pc psp (E.MPU_SP_EAR p w) fs :: rest, ?_⟩, ?_⟩
      · rw [ht, hm]; rfl
      · intro a b c d hmem
        rw [ht, List.mem_append] at hmem
        rcases hmem with h | h
        · exact absurd h (hnb a b c d)
        · rcases List.mem_cons.1 h with h2 | h2
          · injection h2 with _ _ h3 h4
            exact ⟨h3, h4⟩
          · rcases hrest _ h2 with h3 | h3 <;> cases h3
  · intro hp hmult
    exact hneg (by omega)

/-- Witness of C19 on `board_unresolved`, where the MPU reports multiple violations
(`VMPU_FAULT_MULTIPLE = -2`): the first action is the call of the corner-case resolver
with the `BFAR` snapshot `0x40000000` and the saved status `0x82`. -/
theorem bus_fault_address_selection_witness :
    (active_irqn boardEnv board_unresolved = BusFault_IRQn ∧ 0xFFFFFFFD &&& 4 ≠ 0 ∧
      boardEnv.vmpu_fault_get_slave_port board_unresolved = boardEnv.VMPU_FAULT_MULTIPLE ∧
      boardEnv.VMPU_FAULT_MULTIPLE < 0) ∧
    (∃ rest, (vmpu_sys_mux_handler boardEnv 0xFFFFFFFD 0x2000 board_unresolved).trace =
      Event.recovery_bus 0x20002018 0x20002000 0x40000000 0x82 :: rest) :=
  ⟨⟨by decide, by decide, by decide, by decide⟩,
   ((bus_fault_address_selection boardEnv 0xFFFFFFFD 0x2000 board_unresolved
      (by decide) (by decide)).2.2 (by decide) (by decide)).1⟩

end Uvisor
